import Mathlib

/-!
# Wisp call-screening backend: a shallow embedding

This file embeds the call-state reconciliation core of the Wisp backend
(`main.py`, `database.py`, `screening.py`, and the `backend/` variant) and
proves or refutes the specification claims about it.

Conventions of the embedding:
* Python dict values that can appear in a call record are modelled by `Wisp.Val`
  (`Val.none` is Python `None`); a partial-record dict is a `Wisp.Dict`
  (`Option Val` distinguishes a key that is absent from a key bound to `None`).
* The SQLite row for a call is `Wisp.Row`: every column present, `Val.none`
  for SQL NULL, with `transfer_initiated` stored as the integer `0`/`1`
  exactly as `create_or_update_call` writes it.
* The durable store and the in-memory live registry are total maps from call
  identifiers (strings) to rows/dicts.  Call identifiers are modelled as
  strings, which is the shape every code path of the repository produces.
* Wall-clock reads (`datetime.utcnow().isoformat()`) become explicit `now`
  parameters: one for the timestamp a handler places in a record, one for the
  timestamp `create_or_update_call` itself reads.
* A failing durable write (the `except` branch of `create_or_update_call`)
  is an explicit `dbFail` flag: the SQL write is skipped and `False` is
  returned, but the argument dict has already been mutated, exactly as in the
  source, where `call_data` is updated before the `INSERT OR REPLACE` runs.
* The remote telephony API is an oracle `Nat → RemoteResp` giving the outcome
  of each HTTP attempt; the retry loops are translated attempt by attempt and
  additionally report how many attempts ran and how many backoff sleeps
  happened, which are the observables the retry claims talk about.
-/

namespace Wisp

/-- Verdict enum from `screening.py`. -/
inductive Verdict where
  | SCAM
  | SAFE
deriving DecidableEq, Repr

/-- The string value of a verdict (`Verdict.value` in the source). -/
def verdictStr : Verdict → String
  | .SCAM => "SCAM"
  | .SAFE => "SAFE"

/-- A Python value that can appear in a call record. -/
inductive Val where
  | none
  | str (s : String)
  | bool (b : Bool)
  | int (n : Int)
deriving DecidableEq, Repr

/-- Python truthiness for `Val`. -/
def Val.truthy : Val → Bool
  | .none => false
  | .str s => s ≠ ""
  | .bool b => b
  | .int n => n ≠ 0

/-- The columns of the `calls` table (and the keys of the partial-record
dicts the handlers build). -/
inductive Field where
  | call_id
  | from_number
  | to_number
  | started_at
  | status
  | screening_verdict
  | screening_summary
  | screened_at
  | transcript
  | terminated_at
  | transfer_initiated
  | transfer_target
  | transfer_initiated_at
  | transferred_to
  | transferred_at
  | ended_at
  | created_at
  | updated_at
deriving DecidableEq, Repr

/-- A Python dict holding a partial call record: `Option.none` means the key
is absent, `some v` that the key is bound to `v` (possibly `Val.none`). -/
abbrev Dict := Field → Option Val

/-- A stored row: every column present (`Val.none` for SQL NULL). -/
abbrev Row := Field → Val

/-- The durable call store, keyed by `call_id`. -/
abbrev Store := String → Option Row

/-- The in-memory `active_calls` registry. -/
abbrev Registry := String → Option Dict

/-- Python `d.get(f)` — `dict.get`: `None` when the key is absent. -/
def dget (d : Dict) (f : Field) : Val :=
  (d f).getD .none

/-- Python `d[f] = v` item assignment. -/
def dset (d : Dict) (f : Field) (v : Val) : Dict :=
  fun g => if g = f then some v else d g

/-- Python `d1.update(d2)`: keys present in `d2` win, other keys keep `d1`'s value. -/
def dictUpdate (d1 d2 : Dict) : Dict :=
  fun f => match d2 f with
    | some v => some v
    | Option.none => d1 f

/-- The empty dict. -/
def emptyDict : Dict := fun _ => Option.none

/-- A dict literal, assigning the listed keys in order. -/
def ofList (l : List (Field × Val)) : Dict :=
  l.foldl (fun d p => dset d p.1 p.2) emptyDict

/-- Assign the listed keys in order on top of an existing dict. -/
def setFields (d : Dict) (l : List (Field × Val)) : Dict :=
  l.foldl (fun d p => dset d p.1 p.2) d

/-- Registry item assignment. -/
def rset (reg : Registry) (id : String) (d : Dict) : Registry :=
  fun j => if j = id then some d else reg j

/-- The row `create_or_update_call` writes for a dict: each column takes the
dict's value for that key (`NULL` when absent), except `transfer_initiated`,
stored as `1 if call_data.get("transfer_initiated") else 0`. -/
def rowOfDict (d : Dict) : Row :=
  fun f => match f with
    | .transfer_initiated => .int (if (dget d .transfer_initiated).truthy then 1 else 0)
    | _ => dget d f

/-- Python `dict(row)` — the dict a fetched row yields: every column key present. -/
def rowToDict (r : Row) : Dict :=
  fun f => some (r f)

/-- Function `get_call` (`database.py`): fetch the row for a call id; a non-string
id matches no row. -/
def get_call (store : Store) (cid : Val) : Option Dict :=
  match cid with
  | .str s => (store s).map rowToDict
  | _ => Option.none

/-- Function `create_or_update_call` (`database.py`).  Ensures `created_at` (looking up
the existing row when the key is absent) and `updated_at` on the argument
dict, then `INSERT OR REPLACE`s the whole row.  Returns the new store, the
mutated dict (the caller's dict object is mutated in the source before any
write is attempted), and the function's boolean result. -/
def create_or_update_call (store : Store) (call_data : Dict) (nowDb : String)
    (dbFail : Bool) : Store × Dict × Bool :=
  let call_data :=
    if (call_data Field.created_at).isSome then call_data
    else
      match get_call store (dget call_data Field.call_id) with
      | some existing => dset call_data Field.created_at (dget existing Field.created_at)
      | Option.none => dset call_data Field.created_at (Val.str nowDb)
  let call_data := dset call_data Field.updated_at (Val.str nowDb)
  let written :=
    if dbFail then (store, false)
    else
      match dget call_data Field.call_id with
      | Val.str cid =>
          (fun id => if id = cid then some (rowOfDict call_data) else store id, true)
      | _ => (store, false)
  (written.1, call_data, written.2)

instance {α β : Type} [DecidableEq α] [DecidableEq β] : DecidableEq (Except α β) :=
  fun a b =>
    match a, b with
    | .ok x, .ok y =>
      if h : x = y then isTrue (by rw [h]) else isFalse (by intro hc; cases hc; exact h rfl)
    | .error x, .error y =>
      if h : x = y then isTrue (by rw [h]) else isFalse (by intro hc; cases hc; exact h rfl)
    | .ok _, .error _ => isFalse (by intro hc; cases hc)
    | .error _, .ok _ => isFalse (by intro hc; cases hc)

/-- The full in-process state: live registry plus durable store. -/
structure SysState where
  active_calls : Registry
  store : Store

/-- The state at process start: empty registry, empty store. -/
def initState : SysState :=
  ⟨fun _ => Option.none, fun _ => Option.none⟩

/-- Observable: the stored value of one column of one call's row. -/
def storeVal (st : SysState) (id : String) (f : Field) : Option Val :=
  (st.store id).map (fun r => r f)

/-- Observable: the live registry's binding for one key of one call. -/
def regVal (st : SysState) (id : String) (f : Field) : Option (Option Val) :=
  (st.active_calls id).map (fun e => e f)

/-! ## The repeated handler pattern

Every persisting handler except `call_started` follows one source pattern:
mutate the live entry in place when it exists, build a small partial record,
`call_record.update(active_calls[call_id])` when the entry exists, then
persist.  `sync_reg`, `sp_record` and `sync_and_persist` factor that shared
shape; each handler below instantiates them with its own field lists. -/

/-- In-place mutation of the live entry, when present (`if call_id in
active_calls: active_calls[call_id][...] = ...`). -/
def sync_reg (reg : Registry) (cid : String) (sync : List (Field × Val)) : Registry :=
  match reg cid with
  | some e => rset reg cid (setFields e sync)
  | Option.none => reg

/-- The record actually persisted: the partial update, overlaid by the live
entry when one exists (`call_record.update(active_calls[call_id])` — note the
live entry's keys win). -/
def sp_record (reg : Registry) (cid : String) (record : Dict) : Dict :=
  match reg cid with
  | some e => dictUpdate record e
  | Option.none => record

/-- Sync the live entry, merge it into the partial record, persist. -/
def sync_and_persist (st : SysState) (cid : String) (sync : List (Field × Val))
    (record : Dict) (nowDb : String) (dbFail : Bool) : SysState :=
  let reg' := sync_reg st.active_calls cid sync
  ⟨reg', (create_or_update_call st.store (sp_record reg' cid record) nowDb dbFail).1⟩

/-! ## Webhook event handlers (`retell_webhook`, `main.py`) -/

/-- The fresh record the `call_started` handler builds. -/
def started_record (cid : String) (fromn ton : Val) (nowF : String) : Dict :=
  ofList [(Field.call_id, Val.str cid), (Field.from_number, fromn), (Field.to_number, ton),
          (Field.started_at, Val.str nowF), (Field.status, Val.str "active")]

/-- Handler for `call_started`: a fresh record is stored in the registry and persisted.
The registry keeps the same dict object the store call mutates, so the live
entry ends up carrying the `created_at`/`updated_at` keys the store set. -/
def handle_call_started (st : SysState) (cid : String) (fromn ton : Val)
    (nowF nowDb : String) (dbFail : Bool) : SysState :=
  let res := create_or_update_call st.store (started_record cid fromn ton nowF) nowDb dbFail
  ⟨rset st.active_calls cid res.2.1, res.1⟩

/-- The field assignments of the `call_ended` handler. -/
def ended_sync (nowF : String) : List (Field × Val) :=
  [(Field.status, Val.str "ended"), (Field.ended_at, Val.str nowF)]

/-- The partial record of the `call_ended` handler. -/
def ended_record (cid nowF : String) : Dict :=
  ofList [(Field.call_id, Val.str cid), (Field.status, Val.str "ended"),
          (Field.ended_at, Val.str nowF)]

/-- Handler for `call_ended`. -/
def handle_call_ended (st : SysState) (cid : String) (nowF nowDb : String)
    (dbFail : Bool) : SysState :=
  sync_and_persist st cid (ended_sync nowF) (ended_record cid nowF) nowDb dbFail

/-- The field assignments of the `call_transferred` handler. -/
def transferred_sync (tto : Val) (nowF : String) : List (Field × Val) :=
  [(Field.transferred_to, tto), (Field.transferred_at, Val.str nowF)]

/-- The partial record of the `call_transferred` handler. -/
def transferred_record (cid : String) (tto : Val) (nowF : String) : Dict :=
  ofList [(Field.call_id, Val.str cid), (Field.transferred_to, tto),
          (Field.transferred_at, Val.str nowF)]

/-- Handler for `call_transferred`. -/
def handle_call_transferred (st : SysState) (cid : String) (tto : Val)
    (nowF nowDb : String) (dbFail : Bool) : SysState :=
  sync_and_persist st cid (transferred_sync tto nowF) (transferred_record cid tto nowF)
    nowDb dbFail

/-! ## Outbound action executor -/

/-- Outcome of one HTTP attempt against the remote telephony API:
a 2xx response, a status error raised by `raise_for_status`, or a
network/timeout/other exception. -/
inductive RemoteResp where
  | ok
  | httpError (code : Nat)
  | exn
deriving DecidableEq, Repr

/-- An error the terminate/transfer loops retry (any status error other than
404, and any other exception). -/
def Retryable (r : RemoteResp) : Prop :=
  r ≠ .ok ∧ r ≠ .httpError 404

/-- The field assignments of a successful terminate attempt. -/
def terminated_sync (nowF : String) : List (Field × Val) :=
  [(Field.status, Val.str "terminated"), (Field.terminated_at, Val.str nowF)]

/-- The partial record of a successful terminate attempt. -/
def terminated_record (cid nowF : String) : Dict :=
  ofList [(Field.call_id, Val.str cid), (Field.status, Val.str "terminated"),
          (Field.terminated_at, Val.str nowF)]

/-- On a successful terminate attempt the call state is synced and the
termination is persisted (`main.py` lines 136–155). -/
def terminate_success_persist (st : SysState) (cid : String) (nowF nowDb : String)
    (dbFail : Bool) : SysState :=
  sync_and_persist st cid (terminated_sync nowF) (terminated_record cid nowF) nowDb dbFail

/-- The field assignments of a successful transfer attempt. -/
def transfer_init_sync (target nowF : String) : List (Field × Val) :=
  [(Field.transfer_initiated, Val.bool true), (Field.transfer_target, Val.str target),
   (Field.transfer_initiated_at, Val.str nowF)]

/-- The partial record of a successful transfer attempt. -/
def transfer_init_record (cid target nowF : String) : Dict :=
  ofList [(Field.call_id, Val.str cid), (Field.transfer_initiated, Val.bool true),
          (Field.transfer_target, Val.str target),
          (Field.transfer_initiated_at, Val.str nowF)]

/-- On a successful transfer attempt the transfer initiation is synced and
persisted (`main.py` lines 198–216). -/
def transfer_success_persist (st : SysState) (cid : String) (target : String)
    (nowF nowDb : String) (dbFail : Bool) : SysState :=
  sync_and_persist st cid (transfer_init_sync target nowF) (transfer_init_record cid target nowF)
    nowDb dbFail

/-- The retry loop of `terminate_retell_call`, one attempt per step.  Returns
the state, the boolean the function returns, the number of attempts made and
the number of backoff sleeps.  A 404 returns `True` at once (the call is
already gone); every other failure retries until the attempt budget runs out. -/
def terminate_loop (st : SysState) (cid : String) (remote : Nat → RemoteResp)
    (nowF nowDb : String) (dbFail : Bool) :
    Nat → Nat → SysState × Bool × Nat × Nat
  | _, 0 => (st, false, 0, 0)
  | attempt, r + 1 =>
    let fail :=
      if r = 0 then (st, false, 1, 0)
      else
        let rec' := terminate_loop st cid remote nowF nowDb dbFail (attempt + 1) r
        (rec'.1, rec'.2.1, rec'.2.2.1 + 1, rec'.2.2.2 + 1)
    match remote attempt with
    | .ok => (terminate_success_persist st cid nowF nowDb dbFail, true, 1, 0)
    | .httpError code => if code = 404 then (st, true, 1, 0) else fail
    | .exn => fail

/-- Function `terminate_retell_call` (`main.py` lines 116–174; the `backend/` variant
is identical apart from the timestamp suffix). -/
def terminate_retell_call (st : SysState) (cid : String) (remote : Nat → RemoteResp)
    (nowF nowDb : String) (dbFail : Bool) (retry_count : Nat := 3) :
    SysState × Bool × Nat × Nat :=
  terminate_loop st cid remote nowF nowDb dbFail 0 retry_count

/-- The retry loop of `warm_transfer_retell_call` (`main.py` lines 177–238):
like the terminate loop, but a 404 returns `False` (nothing left to transfer
into). -/
def warm_transfer_loop (st : SysState) (cid : String) (target : String)
    (remote : Nat → RemoteResp) (nowF nowDb : String) (dbFail : Bool) :
    Nat → Nat → SysState × Bool × Nat × Nat
  | _, 0 => (st, false, 0, 0)
  | attempt, r + 1 =>
    let fail :=
      if r = 0 then (st, false, 1, 0)
      else
        let rec' := warm_transfer_loop st cid target remote nowF nowDb dbFail (attempt + 1) r
        (rec'.1, rec'.2.1, rec'.2.2.1 + 1, rec'.2.2.2 + 1)
    match remote attempt with
    | .ok => (transfer_success_persist st cid target nowF nowDb dbFail, true, 1, 0)
    | .httpError code => if code = 404 then (st, false, 1, 0) else fail
    | .exn => fail

/-- Function `warm_transfer_retell_call` of the primary variant (the whisper message
is part of the request payload only and does not influence control flow). -/
def warm_transfer_retell_call (st : SysState) (cid target whisper : String)
    (remote : Nat → RemoteResp) (nowF nowDb : String) (dbFail : Bool)
    (retry_count : Nat := 3) : SysState × Bool × Nat × Nat :=
  warm_transfer_loop st cid target remote nowF nowDb dbFail 0 retry_count

/-- The retry loop of the `backend/` variant's `warm_transfer_retell_call`
(lines 331–444): 404, 401 and 400 all return `False` without retrying;
other status errors, request errors and exceptions retry. -/
def backend_transfer_loop (st : SysState) (cid : String) (target : String)
    (remote : Nat → RemoteResp) (nowF nowDb : String) (dbFail : Bool) :
    Nat → Nat → SysState × Bool × Nat × Nat
  | _, 0 => (st, false, 0, 0)
  | attempt, r + 1 =>
    let fail :=
      if r = 0 then (st, false, 1, 0)
      else
        let rec' := backend_transfer_loop st cid target remote nowF nowDb dbFail (attempt + 1) r
        (rec'.1, rec'.2.1, rec'.2.2.1 + 1, rec'.2.2.2 + 1)
    match remote attempt with
    | .ok => (transfer_success_persist st cid target nowF nowDb dbFail, true, 1, 0)
    | .httpError code =>
        if code = 404 then (st, false, 1, 0)
        else if code = 401 then (st, false, 1, 0)
        else if code = 400 then (st, false, 1, 0)
        else fail
    | .exn => fail

/-- The `backend/` variant's status precheck before a transfer: a live entry
with status `ended`/`terminated` blocks the attempt; with no live entry, the
durable row's status is consulted; with neither, the attempt proceeds. -/
def backend_transfer_blocked (st : SysState) (cid : String) : Bool :=
  match st.active_calls cid with
  | some e => dget e Field.status = Val.str "ended" ∨ dget e Field.status = Val.str "terminated"
  | Option.none =>
      match st.store cid with
      | some r => r Field.status = Val.str "ended" ∨ r Field.status = Val.str "terminated"
      | Option.none => false

/-- The `backend/` variant's standard `warm_transfer_retell_call`:
missing API key and the status precheck short-circuit before any attempt. -/
def backend_warm_transfer (st : SysState) (cid target whisper : String)
    (remote : Nat → RemoteResp) (apiKeyConfigured : Bool) (nowF nowDb : String)
    (dbFail : Bool) (retry_count : Nat := 3) : SysState × Bool × Nat × Nat :=
  if !apiKeyConfigured then (st, false, 0, 0)
  else if backend_transfer_blocked st cid then (st, false, 0, 0)
  else backend_transfer_loop st cid target remote nowF nowDb dbFail 0 retry_count

/-! ## Transcript classification (`screening.py`) -/

/-- The environment `analyze_with_gemini` runs against: whether the `ollama`
package imported, whether `ollama.list()` succeeds, and the generation call
(receiving the prompt and producing the response text — the
`response['response']` of a dict response or the collected chunks of a
streaming one — or raising). -/
structure OllamaEnv where
  ollama_imported : Bool
  list_ok : Bool
  generate : String → Except Unit String

/-- Function `_check_ollama_connection`. -/
def check_ollama_connection (env : OllamaEnv) : Bool :=
  env.ollama_imported && env.list_ok

/-- The prompt `analyze_with_gemini` builds. -/
def mkPrompt (transcript : String) : String :=
  "You are a call screening AI. Analyze the following call transcript and determine if it's a SCAM or SAFE call.\n\n" ++
  "Call Transcript:\n" ++ transcript ++ "\n\n" ++
  "Instructions:\n" ++
  "1. Determine if this is a SCAM or SAFE call based on the caller's intent and behavior.\n" ++
  "2. Provide a verdict: SCAM or SAFE\n" ++
  "3. Provide a 5-word summary of the caller's intent (exactly 5 words, no more, no less).\n\n" ++
  "Respond in this exact format:\n" ++
  "VERDICT: [SCAM or SAFE]\n" ++
  "SUMMARY: [exactly 5 words describing caller's intent]\n"

/-- Python `str.split()`: split on whitespace, dropping empty pieces. -/
def pyWords (s : String) : List String :=
  (s.split Char.isWhitespace).filter (· ≠ "")

/-- The line scan of the model response: the last `VERDICT:`/`SUMMARY:`
lines win, the text after the first colon is trimmed. -/
def parseLines (lines : List String) : Option Verdict × Option String :=
  lines.foldl
    (fun acc line =>
      if line.startsWith "VERDICT:" then
        (some (if (line.drop 8).trim.toUpper = "SCAM" then Verdict.SCAM else Verdict.SAFE), acc.2)
      else if line.startsWith "SUMMARY:" then
        (acc.1, some (line.drop 8).trim)
      else acc)
    (Option.none, Option.none)

/-- The fallback parse when no `VERDICT:`/`SUMMARY:` lines were found:
substring search for `SCAM`, first five words (or first 50 characters) as
summary. -/
def fallbackParse (response_text : String) : Verdict × String :=
  let verdict := if response_text.toUpper.containsSubstr "SCAM" then Verdict.SCAM else .SAFE
  let words := pyWords response_text
  let summary := if words.length ≥ 5 then " ".intercalate (words.take 5)
                 else response_text.take 50
  (verdict, summary)

/-- The 5-word normalization: truncate past five words, pad with `"call"`
below five, leave an exactly-five-word summary untouched. -/
def normalizeSummary (summary : String) : String :=
  let ws := pyWords summary
  if ws.length > 5 then " ".intercalate (ws.take 5)
  else if ws.length < 5 then " ".intercalate (ws ++ List.replicate (5 - ws.length) "call")
  else summary

/-- Function `analyze_with_gemini` (`screening.py`): every failure path — missing
library, unreachable server, or an exception from the generation call —
returns `(SAFE, "Unable to analyze call transcript")`. -/
def analyze_with_gemini (env : OllamaEnv) (transcript : String) : Verdict × String :=
  if !env.ollama_imported then (.SAFE, "Unable to analyze call transcript")
  else if !check_ollama_connection env then (.SAFE, "Unable to analyze call transcript")
  else
    match env.generate (mkPrompt transcript) with
    | .error _ => (.SAFE, "Unable to analyze call transcript")
    | .ok raw =>
      let response_text := raw.trim
      let parsed := parseLines (response_text.splitOn "\n")
      let vs :=
        if parsed.1.isNone || parsed.2.isNone || parsed.2 = some "" then
          fallbackParse response_text
        else (parsed.1.getD .SAFE, parsed.2.getD "")
      (vs.1, normalizeSummary vs.2)

/-! ## The screening endpoint (`wisp_screen`, `main.py`) -/

/-- The `args` object of the Retell custom-tool wire shape. -/
structure WireArgs where
  call_id : Option String
  transcript : Option String

/-- A request body in either wire shape: when `args` is present the fields
are read from it, otherwise from the top level. -/
structure WireBody where
  args : Option WireArgs
  call_id : Option String
  transcript : Option String

/-- Field extraction from either wire shape. -/
def extractFields (b : WireBody) : Option String × Option String :=
  match b.args with
  | some a => (a.call_id, a.transcript)
  | Option.none => (b.call_id, b.transcript)

/-- Python truthiness of an optional string (`if not call_id`). -/
def otruthy : Option String → Bool
  | Option.none => false
  | some s => s ≠ ""

/-- The response model of the screening endpoint. -/
structure ScreeningResponse where
  verdict : Verdict
  summary : String
  call_id : String
deriving DecidableEq, Repr

/-- Which outbound action the screening flow invoked, with its boolean
result. -/
inductive ActionTaken where
  | terminate (ok : Bool)
  | transfer (ok : Bool)
deriving DecidableEq, Repr

def ActionTaken.isTransfer : ActionTaken → Bool
  | .transfer _ => true
  | .terminate _ => false

def WISP_PHONE : String := "+14702282477"

/-- The field assignments of the screening handler's live-entry sync. -/
def screen_sync (verdict : Verdict) (summary nowScreenF transcript : String) :
    List (Field × Val) :=
  [(Field.screening_verdict, Val.str (verdictStr verdict)),
   (Field.screening_summary, Val.str summary),
   (Field.screened_at, Val.str nowScreenF),
   (Field.transcript, Val.str transcript)]

/-- The partial record the screening handler persists. -/
def screen_record (cid : String) (verdict : Verdict) (summary nowScreenF transcript : String) :
    Dict :=
  ofList [(Field.call_id, Val.str cid),
          (Field.screening_verdict, Val.str (verdictStr verdict)),
          (Field.screening_summary, Val.str summary),
          (Field.screened_at, Val.str nowScreenF),
          (Field.transcript, Val.str transcript)]

/-- The body of `wisp_screen` after validation: classify, sync the live
entry, persist the screening record, then terminate (SCAM) or warm-transfer
(SAFE).  Neither a failing persist (`dbFailScreen`/`dbFailExec`) nor any
executor outcome can keep the response from being produced. -/
def wisp_screen_core (st : SysState) (cid transcript : String) (env : OllamaEnv)
    (dbFailScreen : Bool) (remote : Nat → RemoteResp)
    (nowScreenF nowScreenDb nowExecF nowExecDb : String) (dbFailExec : Bool) :
    SysState × ScreeningResponse × ActionTaken :=
  let vs := analyze_with_gemini env transcript
  let verdict := vs.1
  let summary := vs.2
  let st1 := sync_and_persist st cid (screen_sync verdict summary nowScreenF transcript)
    (screen_record cid verdict summary nowScreenF transcript) nowScreenDb dbFailScreen
  match verdict with
  | .SCAM =>
    let res := terminate_retell_call st1 cid remote nowExecF nowExecDb dbFailExec 3
    (res.1, ⟨verdict, summary, cid⟩, .terminate res.2.1)
  | .SAFE =>
    let whisper := "Wisp here. Verified: " ++ summary ++ ". Press any key to bridge."
    let res := warm_transfer_retell_call st1 cid WISP_PHONE whisper remote nowExecF nowExecDb dbFailExec 3
    (res.1, ⟨verdict, summary, cid⟩, .transfer res.2.1)

/-- The `wisp_screen` endpoint: extraction from either wire shape, then the
422 validation, then the core flow.  On a validation error the state is
returned untouched. -/
def wisp_screen (st : SysState) (b : WireBody) (env : OllamaEnv)
    (dbFailScreen : Bool) (remote : Nat → RemoteResp)
    (nowScreenF nowScreenDb nowExecF nowExecDb : String) (dbFailExec : Bool) :
    Except Nat (ScreeningResponse × ActionTaken) × SysState :=
  let fields := extractFields b
  if !otruthy fields.1 then (.error 422, st)
  else if !otruthy fields.2 then (.error 422, st)
  else
    match fields.1, fields.2 with
    | some cid, some transcript =>
      let res := wisp_screen_core st cid transcript env dbFailScreen remote
        nowScreenF nowScreenDb nowExecF nowExecDb dbFailExec
      (.ok (res.2.1, res.2.2), res.1)
    | _, _ => (.error 422, st)

/-! ## The webhook endpoint (`retell_webhook`, `main.py`) -/

/-- Split a character list at every occurrence of `c` (Python
`str.split(c)` for a one-character separator). -/
def splitChar (c : Char) : List Char → List (List Char)
  | [] => [[]]
  | ch :: rest =>
    let r := splitChar c rest
    if ch = c then [] :: r
    else
      match r with
      | [] => [[ch]]
      | w :: ws => (ch :: w) :: ws

/-- Python `s.split(c)` for a one-character separator. -/
def pySplitOn (s : String) (c : Char) : List String :=
  (splitChar c s.data).map List.asString

/-- Python `s.startswith(pre)`. -/
def pyStartsWith (s pre : String) : Bool :=
  pre.data.isPrefixOf s.data

/-- Python `s[n:]`. -/
def pyDrop (s : String) (n : Nat) : String :=
  (s.data.drop n).asString

/-- Function `verify_retell_webhook`, parametrized by the HMAC-SHA256 hex digest
(`hmacHex secret payload`).  With no (or an empty) secret verification is
skipped; a comma-separated header contributes the value under its `d=` part
(absence, or an empty value, fails); the comparison is `hmac.compare_digest`,
i.e. string equality evaluated in constant time. -/
def verify_retell_webhook (hmacHex : String → String → String)
    (secret : Option String) (payload signature : String) : Bool :=
  match secret with
  | Option.none => true
  | some sec =>
    if sec = "" then true
    else
      let sig? :=
        if (pySplitOn signature ',').length ≠ 1 then
          match (pySplitOn signature ',').find? (fun part => pyStartsWith part "d=") with
          | some part => if pyDrop part 2 = "" then Option.none else some (pyDrop part 2)
          | Option.none => Option.none
        else some signature
      match sig? with
      | Option.none => false
      | some s => s = hmacHex sec payload

/-- The `call` object of a webhook payload. -/
structure WebhookCall where
  call_id : String
  from_number : Val
  to_number : Val
  transfer_phone_number : Val

/-- A parsed webhook payload. -/
structure WebhookPayload where
  event : Option String
  call : WebhookCall

/-- The event-dispatch block of `retell_webhook`: a 400 on an unparseable
payload, then the per-event handler (unknown events are acknowledged without
touching state). -/
def retell_webhook_dispatch (st : SysState) (payload : Option WebhookPayload)
    (nowF nowDb : String) (dbFail : Bool) :
    Except Nat (Option String × String) × SysState :=
  match payload with
  | Option.none => (.error 400, st)
  | some p =>
    let cid := p.call.call_id
    if p.event = some "call_started" then
      (.ok (p.event, cid),
       handle_call_started st cid p.call.from_number p.call.to_number nowF nowDb dbFail)
    else if p.event = some "call_ended" then
      (.ok (p.event, cid), handle_call_ended st cid nowF nowDb dbFail)
    else if p.event = some "call_transferred" then
      (.ok (p.event, cid),
       handle_call_transferred st cid p.call.transfer_phone_number nowF nowDb dbFail)
    else (.ok (p.event, cid), st)

/-- Endpoint `retell_webhook`: when a secret is configured and a signature header is
present but does not verify, the failure is only logged — the 401 rejection
in the source is a commented-out line — and the event is dispatched exactly
as if the signature had verified.  Returns the response, the new state, and
whether the invalid-signature warning was logged. -/
def retell_webhook (st : SysState) (hmacHex : String → String → String)
    (secret : Option String) (sigHeader : Option String) (rawBody : String)
    (payload : Option WebhookPayload) (nowF nowDb : String) (dbFail : Bool) :
    Except Nat (Option String × String) × SysState × Bool :=
  let secretTruthy := match secret with | some s => s ≠ "" | Option.none => false
  let headerTruthy := match sigHeader with | some h => h ≠ "" | Option.none => false
  let loggedBadSig := secretTruthy && headerTruthy &&
    !(verify_retell_webhook hmacHex secret rawBody (sigHeader.getD ""))
  let res := retell_webhook_dispatch st payload nowF nowDb dbFail
  (res.1, res.2, loggedBadSig)

/-! ## The backend variant's screening persist -/

/-- The record the `backend/` variant's `wisp_screen` persists (lines
506–532): start from `call_id`, overlay the existing durable record, overlay
the live entry, then set the four screening fields last. -/
def backend_screen_record (existing live : Option Dict) (cid transcript summary : String)
    (verdict : Verdict) (screened_at : String) : Dict :=
  let call_record : Dict := ofList [(Field.call_id, Val.str cid)]
  let call_record := match existing with
    | some e => dictUpdate call_record e
    | Option.none => call_record
  let call_record := match live with
    | some e => dictUpdate call_record e
    | Option.none => call_record
  let call_record := dset call_record Field.screening_verdict (Val.str (verdictStr verdict))
  let call_record := dset call_record Field.screening_summary (Val.str summary)
  let call_record := dset call_record Field.screened_at (Val.str screened_at)
  dset call_record Field.transcript (Val.str transcript)

/-! ## Trace semantics

The inputs the system reacts to, at handler granularity.  `restart` models a
process restart: the registry is rebuilt from nothing, the durable store
survives. -/

inductive Op where
  | started (cid : String) (fromn ton : Val) (nowF nowDb : String) (dbFail : Bool)
  | ended (cid : String) (nowF nowDb : String) (dbFail : Bool)
  | transferredEv (cid : String) (tto : Val) (nowF nowDb : String) (dbFail : Bool)
  | screen (cid transcript : String) (env : OllamaEnv) (dbFailScreen : Bool)
      (remote : Nat → RemoteResp) (nowScreenF nowScreenDb nowExecF nowExecDb : String)
      (dbFailExec : Bool)
  | restart

def applyOp (st : SysState) : Op → SysState
  | .started cid f t nF nD dF => handle_call_started st cid f t nF nD dF
  | .ended cid nF nD dF => handle_call_ended st cid nF nD dF
  | .transferredEv cid tto nF nD dF => handle_call_transferred st cid tto nF nD dF
  | .screen cid tr env dS remote n1 n2 n3 n4 dE =>
      (wisp_screen_core st cid tr env dS remote n1 n2 n3 n4 dE).1
  | .restart => ⟨fun _ => Option.none, st.store⟩

/-- The wall-clock values an operation's durable writes can read. -/
def opNows : Op → List String
  | .started _ _ _ _ nD _ => [nD]
  | .ended _ _ nD _ => [nD]
  | .transferredEv _ _ _ nD _ => [nD]
  | .screen _ _ _ _ _ _ n2 _ n4 _ => [n2, n4]
  | .restart => []

def run (ops : List Op) : SysState :=
  ops.foldl applyOp initState

/-! ## Dictionary lemmas -/

@[simp] lemma dset_same (d : Dict) (f : Field) (v : Val) : dset d f v f = some v := by
  simp [dset]

lemma dset_ne {g f : Field} (h : g ≠ f) (d : Dict) (v : Val) : dset d f v g = d g := by
  simp [dset, h]

@[simp] lemma dget_dset_same (d : Dict) (f : Field) (v : Val) : dget (dset d f v) f = v := by
  simp [dget]

lemma dget_dset_ne {g f : Field} (h : g ≠ f) (d : Dict) (v : Val) :
    dget (dset d f v) g = dget d g := by
  simp [dget, dset_ne h]

lemma dictUpdate_of_some {d2 : Dict} {f : Field} {v : Val} (h : d2 f = some v) (d1 : Dict) :
    dictUpdate d1 d2 f = some v := by
  simp [dictUpdate, h]

lemma dictUpdate_of_none {d2 : Dict} {f : Field} (h : d2 f = Option.none) (d1 : Dict) :
    dictUpdate d1 d2 f = d1 f := by
  simp [dictUpdate, h]

@[simp] lemma rowToDict_apply (r : Row) (f : Field) : rowToDict r f = some (r f) := rfl

@[simp] lemma dget_rowToDict (r : Row) (f : Field) : dget (rowToDict r) f = r f := rfl

lemma rowOfDict_other {f : Field} (h : f ≠ Field.transfer_initiated) (d : Dict) :
    rowOfDict d f = dget d f := by
  cases f <;> simp_all [rowOfDict]

/-- A field list not mentioning `f` leaves `f`'s binding alone. -/
lemma setFields_not_mem {f : Field} :
    ∀ (l : List (Field × Val)) (d : Dict), (∀ p ∈ l, p.1 ≠ f) → setFields d l f = d f := by
  intro l
  induction l with
  | nil => intro d _; rfl
  | cons p tl ih =>
    intro d h
    have hp : p.1 ≠ f := h p (by simp)
    have : setFields d (p :: tl) = setFields (dset d p.1 p.2) tl := rfl
    rw [this, ih _ (fun q hq => h q (by simp [hq]))]
    exact dset_ne (fun hf => hp hf.symm) d p.2

/-! ## `create_or_update_call` lemmas -/

/-- The ensured dict, before `updated_at` is stamped. -/
def ensuredData (store : Store) (d : Dict) (nowDb : String) : Dict :=
  if (d Field.created_at).isSome then d
  else
    match get_call store (dget d Field.call_id) with
    | some existing => dset d Field.created_at (dget existing Field.created_at)
    | Option.none => dset d Field.created_at (Val.str nowDb)

lemma cr_data_eq (store : Store) (d : Dict) (nowDb : String) (dF : Bool) :
    (create_or_update_call store d nowDb dF).2.1 =
      dset (ensuredData store d nowDb) Field.updated_at (Val.str nowDb) := rfl

lemma ensuredData_other {f : Field} (hf : f ≠ Field.created_at)
    (store : Store) (d : Dict) (nowDb : String) :
    ensuredData store d nowDb f = d f := by
  unfold ensuredData
  by_cases hpres : (d Field.created_at).isSome
  · simp [hpres]
  · simp only [hpres, if_false, Bool.false_eq_true]
    cases hgc : get_call store (dget d Field.call_id) <;> simp [dset_ne hf]

lemma cr_data_other {f : Field} (hf1 : f ≠ Field.created_at) (hf2 : f ≠ Field.updated_at)
    (store : Store) (d : Dict) (nowDb : String) (dF : Bool) :
    (create_or_update_call store d nowDb dF).2.1 f = d f := by
  rw [cr_data_eq, dset_ne hf2, ensuredData_other hf1]

lemma cr_data_call_id (store : Store) (d : Dict) (nowDb : String) (dF : Bool) :
    dget (create_or_update_call store d nowDb dF).2.1 Field.call_id = dget d Field.call_id := by
  unfold dget
  rw [cr_data_other (by decide) (by decide)]

lemma cr_created_of_present {d : Dict} {v : Val} (h : d Field.created_at = some v)
    (store : Store) (nowDb : String) (dF : Bool) :
    (create_or_update_call store d nowDb dF).2.1 Field.created_at = some v := by
  rw [cr_data_eq, dset_ne (by decide)]
  unfold ensuredData
  simp [h]

lemma cr_created_of_absent_found {d : Dict} {c : String} {r : Row}
    (h : d Field.created_at = Option.none) (hcid : dget d Field.call_id = Val.str c)
    {store : Store} (hst : store c = some r) (nowDb : String) (dF : Bool) :
    (create_or_update_call store d nowDb dF).2.1 Field.created_at = some (r Field.created_at) := by
  rw [cr_data_eq, dset_ne (by decide)]
  unfold ensuredData
  simp [h, hcid, get_call, hst]

lemma cr_created_of_absent_missing {d : Dict} {c : String}
    (h : d Field.created_at = Option.none) (hcid : dget d Field.call_id = Val.str c)
    {store : Store} (hst : store c = Option.none) (nowDb : String) (dF : Bool) :
    (create_or_update_call store d nowDb dF).2.1 Field.created_at = some (Val.str nowDb) := by
  rw [cr_data_eq, dset_ne (by decide)]
  unfold ensuredData
  simp [h, hcid, get_call, hst]

lemma cr_store_dbfail (store : Store) (d : Dict) (nowDb : String) :
    (create_or_update_call store d nowDb true).1 = store := rfl

lemma cr_store_write {d : Dict} {c : String} (hcid : dget d Field.call_id = Val.str c)
    (store : Store) (nowDb : String) :
    (create_or_update_call store d nowDb false).1 = fun id =>
      if id = c then some (rowOfDict (create_or_update_call store d nowDb false).2.1)
      else store id := by
  have hc : dget (create_or_update_call store d nowDb false).2.1 Field.call_id = Val.str c := by
    rw [cr_data_call_id]; exact hcid
  rw [cr_data_eq] at hc
  show (let written :=
      if false then (store, false)
      else
        match dget (dset (ensuredData store d nowDb) Field.updated_at (Val.str nowDb))
            Field.call_id with
        | Val.str cid =>
            (fun id => if id = cid then
                some (rowOfDict
                  (dset (ensuredData store d nowDb) Field.updated_at (Val.str nowDb)))
              else store id, true)
        | _ => (store, false)
    (written.1,
     dset (ensuredData store d nowDb) Field.updated_at (Val.str nowDb), written.2)).1 = _
  rw [hc]
  funext id
  rfl

lemma cr_store_write_apply {d : Dict} {c : String} (hcid : dget d Field.call_id = Val.str c)
    (store : Store) (nowDb : String) (id : String) :
    (create_or_update_call store d nowDb false).1 id =
      if id = c then some (rowOfDict (create_or_update_call store d nowDb false).2.1)
      else store id :=
  congrFun (cr_store_write hcid store nowDb) id

/-! ## The reachable-state invariant

On every state the handlers can produce, (1) a live entry's `call_id` key,
when present, names the key it is registered under, and (2) a live entry's
`created_at` key, when present, agrees with the durable row's `created_at`
whenever that row exists.  (2) is what makes the handlers' live-entry merge
unable to disturb a stored `created_at`. -/
def GoodState (st : SysState) : Prop :=
  (∀ id e, st.active_calls id = some e →
      e Field.call_id = Option.none ∨ e Field.call_id = some (Val.str id)) ∧
  (∀ id e r v, st.active_calls id = some e → st.store id = some r →
      e Field.created_at = some v → v = r Field.created_at)

lemma goodState_init : GoodState initState :=
  ⟨fun _ _ h => Option.noConfusion h, fun _ _ _ _ h => Option.noConfusion h⟩

/-! ### `sync_and_persist` transition lemmas -/

lemma sync_reg_other {id cid : String} (h : id ≠ cid) (reg : Registry)
    (sync : List (Field × Val)) : sync_reg reg cid sync id = reg id := by
  unfold sync_reg
  cases reg cid with
  | none => rfl
  | some e => simp [rset, h]

lemma sync_reg_at (reg : Registry) (cid : String) (sync : List (Field × Val)) :
    sync_reg reg cid sync cid = (reg cid).map (fun e => setFields e sync) := by
  unfold sync_reg
  cases h : reg cid with
  | none => simp [h]
  | some e => simp [rset, h]

/-- The field list of each handler's live-entry sync touches neither
`call_id` nor `created_at`. -/
def SyncBenign (sync : List (Field × Val)) : Prop :=
  ∀ p ∈ sync, p.1 ≠ Field.call_id ∧ p.1 ≠ Field.created_at

section SyncAndPersist

variable {st : SysState} {cid : String} {sync : List (Field × Val)} {record : Dict}
variable {nowDb : String} {dF : Bool}

lemma sync_and_persist_store :
    (sync_and_persist st cid sync record nowDb dF).store =
      (create_or_update_call st.store
        (sp_record (sync_reg st.active_calls cid sync) cid record) nowDb dF).1 := rfl

lemma sync_and_persist_reg :
    (sync_and_persist st cid sync record nowDb dF).active_calls =
      sync_reg st.active_calls cid sync := rfl

lemma sp_record_of_none {reg0 : Registry} (h : (sync_reg reg0 cid sync) cid = Option.none) :
    sp_record (sync_reg reg0 cid sync) cid record = record := by
  unfold sp_record
  rw [h]

lemma sp_record_of_some {reg0 : Registry} {e : Dict}
    (h : (sync_reg reg0 cid sync) cid = some e) :
    sp_record (sync_reg reg0 cid sync) cid record = dictUpdate record e := by
  unfold sp_record
  rw [h]

/-- The persisted record keeps the update's `call_id`. -/
lemma sp_record_call_id (hG : GoodState st)
    (hrecid : dget record Field.call_id = Val.str cid)
    (hsync : SyncBenign sync) :
    dget (sp_record (sync_reg st.active_calls cid sync) cid record) Field.call_id
      = Val.str cid := by
  cases h : st.active_calls cid with
  | none =>
    rw [sp_record_of_none (by rw [sync_reg_at, h]; rfl)]
    exact hrecid
  | some e =>
    rw [sp_record_of_some (e := setFields e sync) (by rw [sync_reg_at, h]; rfl)]
    have hset : setFields e sync Field.call_id = e Field.call_id :=
      setFields_not_mem sync e (fun p hp => (hsync p hp).1)
    rcases hG.1 cid e h with hnone | hsome
    · rw [dget, dictUpdate_of_none (hset.trans hnone)]
      exact hrecid
    · rw [dget, dictUpdate_of_some (hset.trans hsome)]
      rfl

/-- The persisted record's `created_at` key is the live entry's (or absent
when there is no live entry). -/
lemma sp_record_created (hreccre : record Field.created_at = Option.none)
    (hsync : SyncBenign sync) :
    sp_record (sync_reg st.active_calls cid sync) cid record Field.created_at
      = match st.active_calls cid with
        | some e => e Field.created_at
        | Option.none => Option.none := by
  cases h : st.active_calls cid with
  | none =>
    rw [sp_record_of_none (by rw [sync_reg_at, h]; rfl)]
    exact hreccre
  | some e =>
    rw [sp_record_of_some (e := setFields e sync) (by rw [sync_reg_at, h]; rfl)]
    have hset : setFields e sync Field.created_at = e Field.created_at :=
      setFields_not_mem sync e (fun p hp => (hsync p hp).2)
    cases hcre : e Field.created_at with
    | none =>
      rw [dictUpdate_of_none (hset.trans hcre)]
      show record Field.created_at = e Field.created_at
      rw [hcre]; exact hreccre
    | some v =>
      rw [dictUpdate_of_some (hset.trans hcre)]
      show some v = e Field.created_at
      rw [hcre]

/-- Rows already stored keep their `created_at` across the write. -/
lemma sp_preserve (hG : GoodState st)
    (hrecid : dget record Field.call_id = Val.str cid)
    (hreccre : record Field.created_at = Option.none)
    (hsync : SyncBenign sync) :
    ∀ id r r', st.store id = some r →
      (sync_and_persist st cid sync record nowDb dF).store id = some r' →
      r' Field.created_at = r Field.created_at := by
  intro id r r' hr hr'
  have hcid' := sp_record_call_id hG hrecid hsync
  rw [sync_and_persist_store] at hr'
  cases dF with
  | true => rw [cr_store_dbfail, hr] at hr'; cases hr'; rfl
  | false =>
    rw [cr_store_write_apply hcid' st.store nowDb id] at hr'
    by_cases hid : id = cid
    · subst hid
      simp only [if_pos rfl] at hr'
      cases hr'
      rw [rowOfDict_other (by decide)]
      unfold dget
      have hcre := @sp_record_created st id sync record hreccre hsync
      cases hac : st.active_calls id with
      | none =>
        rw [hac] at hcre
        rw [cr_created_of_absent_found hcre hcid' hr]
        rfl
      | some e =>
        rw [hac] at hcre
        cases hecre : e Field.created_at with
        | none =>
          rw [cr_created_of_absent_found (hcre.trans hecre) hcid' hr]
          rfl
        | some v =>
          have hv : v = r Field.created_at := hG.2 id e r v hac hr hecre
          rw [cr_created_of_present (hcre.trans hecre)]
          simp [hv]
    · rw [if_neg hid, hr] at hr'
      cases hr'
      rfl

/-- Stored rows survive the write. -/
lemma sp_exists (hrecid : dget record Field.call_id = Val.str cid)
    (hG : GoodState st) (hsync : SyncBenign sync) :
    ∀ id r, st.store id = some r →
      ∃ r', (sync_and_persist st cid sync record nowDb dF).store id = some r' := by
  intro id r hr
  have hcid' := sp_record_call_id hG hrecid hsync
  rw [sync_and_persist_store]
  cases dF with
  | true => exact ⟨r, by rw [cr_store_dbfail]; exact hr⟩
  | false =>
    by_cases hid : id = cid
    · exact ⟨_, by rw [cr_store_write_apply hcid' st.store nowDb id, if_pos hid]⟩
    · exact ⟨r, by rw [cr_store_write_apply hcid' st.store nowDb id, if_neg hid]; exact hr⟩

/-- No live entry appears where none was. -/
lemma sp_reg_none {id : String} (h : st.active_calls id = Option.none) :
    (sync_and_persist st cid sync record nowDb dF).active_calls id = Option.none := by
  rw [sync_and_persist_reg]
  by_cases hid : id = cid
  · subst hid; rw [sync_reg_at, h]; rfl
  · rw [sync_reg_other hid]; exact h

/-- A row created from nothing (no stored row, no live entry) gets the
write's wall clock as `created_at`. -/
lemma sp_fresh (hG : GoodState st)
    (hrecid : dget record Field.call_id = Val.str cid)
    (hreccre : record Field.created_at = Option.none)
    (hsync : SyncBenign sync) :
    ∀ id, st.store id = Option.none → st.active_calls id = Option.none →
      ∀ r', (sync_and_persist st cid sync record nowDb dF).store id = some r' →
        r' Field.created_at = Val.str nowDb := by
  intro id hs ha r' hr'
  have hcid' := sp_record_call_id hG hrecid hsync
  rw [sync_and_persist_store] at hr'
  cases dF with
  | true => rw [cr_store_dbfail, hs] at hr'; cases hr'
  | false =>
    rw [cr_store_write_apply hcid' st.store nowDb id] at hr'
    by_cases hid : id = cid
    · subst hid
      simp only [if_pos rfl] at hr'
      cases hr'
      rw [rowOfDict_other (by decide)]
      unfold dget
      have hcre := @sp_record_created st id sync record hreccre hsync
      rw [ha] at hcre
      rw [cr_created_of_absent_missing hcre hcid' hs]
      rfl
    · rw [if_neg hid, hs] at hr'
      cases hr'

/-- The invariant survives the write. -/
lemma sp_good (hG : GoodState st)
    (hrecid : dget record Field.call_id = Val.str cid)
    (hreccre : record Field.created_at = Option.none)
    (hsync : SyncBenign sync) :
    GoodState (sync_and_persist st cid sync record nowDb dF) := by
  constructor
  · -- registered entries still name their own key
    intro id e he
    rw [sync_and_persist_reg] at he
    by_cases hid : id = cid
    · subst hid
      rw [sync_reg_at] at he
      cases hac : st.active_calls id with
      | none => rw [hac] at he; cases he
      | some e0 =>
        rw [hac] at he
        simp only [Option.map_some'] at he
        cases he
        have hset : setFields e0 sync Field.call_id = e0 Field.call_id :=
          setFields_not_mem sync e0 (fun p hp => (hsync p hp).1)
        rw [hset]
        exact hG.1 id e0 hac
    · rw [sync_reg_other hid] at he
      exact hG.1 id e he
  · -- live `created_at` still agrees with the stored row
    intro id e r v he hr hecre
    rw [sync_and_persist_reg] at he
    rw [sync_and_persist_store] at hr
    have hcid' := sp_record_call_id hG hrecid hsync
    by_cases hid : id = cid
    · subst hid
      rw [sync_reg_at] at he
      cases hac : st.active_calls id with
      | none => rw [hac] at he; cases he
      | some e0 =>
        rw [hac] at he
        simp only [Option.map_some'] at he
        cases he
        have hset : setFields e0 sync Field.created_at = e0 Field.created_at :=
          setFields_not_mem sync e0 (fun p hp => (hsync p hp).2)
        rw [hset] at hecre
        have hcre0 := @sp_record_created st id sync record hreccre hsync
        rw [hac] at hcre0
        have hcre : sp_record (sync_reg st.active_calls id sync) id record Field.created_at
            = some v := by rw [hcre0]; exact hecre
        cases dF with
        | true =>
          rw [cr_store_dbfail] at hr
          exact hG.2 id e0 r v hac hr hecre
        | false =>
          rw [cr_store_write_apply hcid' st.store nowDb id, if_pos rfl] at hr
          cases hr
          rw [rowOfDict_other (by decide)]
          unfold dget
          rw [cr_created_of_present hcre]
          rfl
    · rw [sync_reg_other hid] at he
      cases dF with
      | true =>
        rw [cr_store_dbfail] at hr
        exact hG.2 id e r v he hr hecre
      | false =>
        rw [cr_store_write_apply hcid' st.store nowDb id, if_neg hid] at hr
        exact hG.2 id e r v he hr hecre

end SyncAndPersist

/-! ### `handle_call_started` transition lemmas -/

section Started

variable {st : SysState} {cid : String} {fromn ton : Val} {nF nD : String} {dF : Bool}

lemma started_record_call_id :
    dget (started_record cid fromn ton nF) Field.call_id = Val.str cid := rfl

lemma started_record_created :
    started_record cid fromn ton nF Field.created_at = Option.none := rfl

lemma started_store :
    (handle_call_started st cid fromn ton nF nD dF).store =
      (create_or_update_call st.store (started_record cid fromn ton nF) nD dF).1 := rfl

lemma started_reg :
    (handle_call_started st cid fromn ton nF nD dF).active_calls =
      rset st.active_calls cid
        (create_or_update_call st.store (started_record cid fromn ton nF) nD dF).2.1 := rfl

lemma started_preserve :
    ∀ id r r', st.store id = some r →
      (handle_call_started st cid fromn ton nF nD dF).store id = some r' →
      r' Field.created_at = r Field.created_at := by
  intro id r r' hr hr'
  rw [started_store] at hr'
  cases dF with
  | true => rw [cr_store_dbfail, hr] at hr'; cases hr'; rfl
  | false =>
    rw [cr_store_write_apply started_record_call_id st.store nD id] at hr'
    by_cases hid : id = cid
    · subst hid
      rw [if_pos rfl] at hr'
      cases hr'
      rw [rowOfDict_other (by decide)]
      unfold dget
      rw [cr_created_of_absent_found started_record_created started_record_call_id hr]
      rfl
    · rw [if_neg hid, hr] at hr'
      cases hr'
      rfl

lemma started_exists :
    ∀ id r, st.store id = some r →
      ∃ r', (handle_call_started st cid fromn ton nF nD dF).store id = some r' := by
  intro id r hr
  rw [started_store]
  cases dF with
  | true => exact ⟨r, by rw [cr_store_dbfail]; exact hr⟩
  | false =>
    by_cases hid : id = cid
    · exact ⟨_, by rw [cr_store_write_apply started_record_call_id st.store nD id, if_pos hid]⟩
    · exact ⟨r, by
        rw [cr_store_write_apply started_record_call_id st.store nD id, if_neg hid]; exact hr⟩

lemma started_fresh :
    ∀ id, st.store id = Option.none →
      ∀ r', (handle_call_started st cid fromn ton nF nD dF).store id = some r' →
        r' Field.created_at = Val.str nD := by
  intro id hs r' hr'
  rw [started_store] at hr'
  cases dF with
  | true => rw [cr_store_dbfail, hs] at hr'; cases hr'
  | false =>
    rw [cr_store_write_apply started_record_call_id st.store nD id] at hr'
    by_cases hid : id = cid
    · subst hid
      rw [if_pos rfl] at hr'
      cases hr'
      rw [rowOfDict_other (by decide)]
      unfold dget
      rw [cr_created_of_absent_missing started_record_created started_record_call_id hs]
      rfl
    · rw [if_neg hid, hs] at hr'
      cases hr'

lemma started_good (hG : GoodState st) :
    GoodState (handle_call_started st cid fromn ton nF nD dF) := by
  have hdata := cr_data_eq st.store (started_record cid fromn ton nF) nD dF
  constructor
  · intro id e he
    rw [started_reg] at he
    by_cases hid : id = cid
    · subst hid
      rw [rset, if_pos rfl] at he
      cases he
      right
      rw [hdata, dset_ne (by decide), ensuredData_other (by decide)]
      rfl
    · rw [rset, if_neg hid] at he
      exact hG.1 id e he
  · intro id e r v he hr hecre
    rw [started_reg] at he
    rw [started_store] at hr
    by_cases hid : id = cid
    · subst hid
      rw [rset, if_pos rfl] at he
      cases he
      -- the live entry is exactly the persisted dict
      cases dF with
      | true =>
        rw [cr_store_dbfail] at hr
        have h2 := @cr_created_of_absent_found (started_record id fromn ton nF) id r
          started_record_created started_record_call_id st.store hr nD true
        rw [hecre] at h2
        exact Option.some.inj h2
      | false =>
        rw [cr_store_write_apply started_record_call_id st.store nD id, if_pos rfl] at hr
        cases hr
        rw [rowOfDict_other (by decide)]
        unfold dget
        rw [hecre]
        rfl
    · rw [rset, if_neg hid] at he
      cases dF with
      | true =>
        rw [cr_store_dbfail] at hr
        exact hG.2 id e r v he hr hecre
      | false =>
        rw [cr_store_write_apply started_record_call_id st.store nD id, if_neg hid] at hr
        exact hG.2 id e r v he hr hecre

end Started

/-! ### Shapes of the executor loops' final states -/

lemma terminate_loop_state (st : SysState) (cid : String) (remote : Nat → RemoteResp)
    (nF nD : String) (dF : Bool) : ∀ (rem a : Nat),
    (terminate_loop st cid remote nF nD dF a rem).1 = st ∨
    (terminate_loop st cid remote nF nD dF a rem).1 =
      terminate_success_persist st cid nF nD dF := by
  intro rem
  induction rem with
  | zero => intro a; left; rfl
  | succ r ih =>
    intro a
    cases h : remote a with
    | ok => right; simp [terminate_loop, h]
    | httpError code =>
      by_cases hc : code = 404
      · left; simp [terminate_loop, h, hc]
      · cases r with
        | zero => left; simp [terminate_loop, h, hc]
        | succ r' =>
          have := ih (a + 1)
          simp only [terminate_loop, h, hc, if_neg hc, Nat.succ_ne_zero, if_false]
          simpa using this
    | exn =>
      cases r with
      | zero => left; simp [terminate_loop, h]
      | succ r' =>
        have := ih (a + 1)
        simp only [terminate_loop, h, Nat.succ_ne_zero, if_false]
        simpa using this

lemma warm_transfer_loop_state (st : SysState) (cid target : String)
    (remote : Nat → RemoteResp) (nF nD : String) (dF : Bool) : ∀ (rem a : Nat),
    (warm_transfer_loop st cid target remote nF nD dF a rem).1 = st ∨
    (warm_transfer_loop st cid target remote nF nD dF a rem).1 =
      transfer_success_persist st cid target nF nD dF := by
  intro rem
  induction rem with
  | zero => intro a; left; rfl
  | succ r ih =>
    intro a
    cases h : remote a with
    | ok => right; simp [warm_transfer_loop, h]
    | httpError code =>
      by_cases hc : code = 404
      · left; simp [warm_transfer_loop, h, hc]
      · cases r with
        | zero => left; simp [warm_transfer_loop, h, hc]
        | succ r' =>
          have := ih (a + 1)
          simp only [warm_transfer_loop, h, hc, if_neg hc, Nat.succ_ne_zero, if_false]
          simpa using this
    | exn =>
      cases r with
      | zero => left; simp [warm_transfer_loop, h]
      | succ r' =>
        have := ih (a + 1)
        simp only [warm_transfer_loop, h, Nat.succ_ne_zero, if_false]
        simpa using this

/-- The state after the screening persist, before any outbound action. -/
def screenMid (st : SysState) (cid tr : String) (env : OllamaEnv) (dS : Bool)
    (n1 n2 : String) : SysState :=
  sync_and_persist st cid
    (screen_sync (analyze_with_gemini env tr).1 (analyze_with_gemini env tr).2 n1 tr)
    (screen_record cid (analyze_with_gemini env tr).1 (analyze_with_gemini env tr).2 n1 tr)
    n2 dS

/-- Every final state of the screening flow: the post-screening-persist state,
possibly with one success persist of the outbound action on top of it. -/
lemma wisp_screen_core_cases (st : SysState) (cid tr : String) (env : OllamaEnv)
    (dS : Bool) (remote : Nat → RemoteResp) (n1 n2 n3 n4 : String) (dE : Bool) :
    (wisp_screen_core st cid tr env dS remote n1 n2 n3 n4 dE).1 =
        screenMid st cid tr env dS n1 n2 ∨
    (wisp_screen_core st cid tr env dS remote n1 n2 n3 n4 dE).1 =
        terminate_success_persist (screenMid st cid tr env dS n1 n2) cid n3 n4 dE ∨
    (wisp_screen_core st cid tr env dS remote n1 n2 n3 n4 dE).1 =
        transfer_success_persist (screenMid st cid tr env dS n1 n2) cid WISP_PHONE n3 n4 dE := by
  unfold wisp_screen_core screenMid
  cases hv : (analyze_with_gemini env tr).1 with
  | SCAM =>
    simp only [hv]
    rcases terminate_loop_state
        (sync_and_persist st cid
          (screen_sync Verdict.SCAM (analyze_with_gemini env tr).2 n1 tr)
          (screen_record cid Verdict.SCAM (analyze_with_gemini env tr).2 n1 tr) n2 dS)
        cid remote n3 n4 dE 3 0 with h | h
    · left; exact h
    · right; left; exact h
  | SAFE =>
    simp only [hv]
    rcases warm_transfer_loop_state
        (sync_and_persist st cid
          (screen_sync Verdict.SAFE (analyze_with_gemini env tr).2 n1 tr)
          (screen_record cid Verdict.SAFE (analyze_with_gemini env tr).2 n1 tr) n2 dS)
        cid WISP_PHONE remote n3 n4 dE 3 0 with h | h
    · left; exact h
    · right; right; exact h

/-! ### Side conditions of each handler's record and sync list -/

lemma ended_record_call_id {cid nF : String} :
    dget (ended_record cid nF) Field.call_id = Val.str cid := rfl

lemma ended_record_created {cid nF : String} :
    ended_record cid nF Field.created_at = Option.none := rfl

lemma ended_sync_benign {nF : String} : SyncBenign (ended_sync nF) := by
  intro p hp
  fin_cases hp <;> constructor <;> intro h <;> simp at h

lemma transferred_record_call_id {cid : String} {tto : Val} {nF : String} :
    dget (transferred_record cid tto nF) Field.call_id = Val.str cid := rfl

lemma transferred_record_created {cid : String} {tto : Val} {nF : String} :
    transferred_record cid tto nF Field.created_at = Option.none := rfl

lemma transferred_sync_benign {tto : Val} {nF : String} : SyncBenign (transferred_sync tto nF) := by
  intro p hp
  fin_cases hp <;> constructor <;> intro h <;> simp at h

lemma terminated_record_call_id {cid nF : String} :
    dget (terminated_record cid nF) Field.call_id = Val.str cid := rfl

lemma terminated_record_created {cid nF : String} :
    terminated_record cid nF Field.created_at = Option.none := rfl

lemma terminated_sync_benign {nF : String} : SyncBenign (terminated_sync nF) := by
  intro p hp
  fin_cases hp <;> constructor <;> intro h <;> simp at h

lemma transfer_init_record_call_id {cid target nF : String} :
    dget (transfer_init_record cid target nF) Field.call_id = Val.str cid := rfl

lemma transfer_init_record_created {cid target nF : String} :
    transfer_init_record cid target nF Field.created_at = Option.none := rfl

lemma transfer_init_sync_benign {target nF : String} : SyncBenign (transfer_init_sync target nF) := by
  intro p hp
  fin_cases hp <;> constructor <;> intro h <;> simp at h

lemma screen_record_call_id {cid : String} {v : Verdict} {su nF tr : String} :
    dget (screen_record cid v su nF tr) Field.call_id = Val.str cid := rfl

lemma screen_record_created {cid : String} {v : Verdict} {su nF tr : String} :
    screen_record cid v su nF tr Field.created_at = Option.none := rfl

lemma screen_sync_benign {v : Verdict} {su nF tr : String} : SyncBenign (screen_sync v su nF tr) := by
  intro p hp
  fin_cases hp <;> constructor <;> intro h <;> simp at h

/-! ### The invariant and `created_at` facts, one input at a time -/

lemma applyOp_good {st : SysState} (hG : GoodState st) (op : Op) :
    GoodState (applyOp st op) := by
  cases op with
  | started cid f t nF nD dF => exact started_good hG
  | ended cid nF nD dF =>
      exact sp_good hG ended_record_call_id ended_record_created ended_sync_benign
  | transferredEv cid tto nF nD dF =>
      exact sp_good hG transferred_record_call_id transferred_record_created
        transferred_sync_benign
  | screen cid tr env dS remote n1 n2 n3 n4 dE =>
      have hGm : GoodState (screenMid st cid tr env dS n1 n2) :=
        sp_good hG screen_record_call_id screen_record_created screen_sync_benign
      have hres := wisp_screen_core_cases st cid tr env dS remote n1 n2 n3 n4 dE
      show GoodState (wisp_screen_core st cid tr env dS remote n1 n2 n3 n4 dE).1
      rcases hres with h | h | h <;> rw [h]
      · exact hGm
      · exact sp_good hGm terminated_record_call_id terminated_record_created
          terminated_sync_benign
      · exact sp_good hGm transfer_init_record_call_id transfer_init_record_created
          transfer_init_sync_benign
  | restart =>
      exact ⟨fun id e he => Option.noConfusion he,
             fun id e r v he _ _ => Option.noConfusion he⟩

lemma applyOp_preserve {st : SysState} (hG : GoodState st) (op : Op) :
    ∀ id r r', st.store id = some r → (applyOp st op).store id = some r' →
      r' Field.created_at = r Field.created_at := by
  cases op with
  | started cid f t nF nD dF => exact started_preserve
  | ended cid nF nD dF =>
      exact sp_preserve hG ended_record_call_id ended_record_created ended_sync_benign
  | transferredEv cid tto nF nD dF =>
      exact sp_preserve hG transferred_record_call_id transferred_record_created
        transferred_sync_benign
  | screen cid tr env dS remote n1 n2 n3 n4 dE =>
      intro id r r' hr hr'
      have hGm : GoodState (screenMid st cid tr env dS n1 n2) :=
        sp_good hG screen_record_call_id screen_record_created screen_sync_benign
      obtain ⟨r1, hr1⟩ :
          ∃ r1, (screenMid st cid tr env dS n1 n2).store id = some r1 :=
        sp_exists screen_record_call_id hG screen_sync_benign id r hr
      have h1 : r1 Field.created_at = r Field.created_at :=
        sp_preserve hG screen_record_call_id screen_record_created screen_sync_benign
          id r r1 hr hr1
      have hres := wisp_screen_core_cases st cid tr env dS remote n1 n2 n3 n4 dE
      rcases hres with h | h | h
      · rw [show (applyOp st (Op.screen cid tr env dS remote n1 n2 n3 n4 dE)).store =
            (wisp_screen_core st cid tr env dS remote n1 n2 n3 n4 dE).1.store from rfl, h] at hr'
        rw [hr1] at hr'
        cases hr'
        exact h1
      · rw [show (applyOp st (Op.screen cid tr env dS remote n1 n2 n3 n4 dE)).store =
            (wisp_screen_core st cid tr env dS remote n1 n2 n3 n4 dE).1.store from rfl, h] at hr'
        have h2 := sp_preserve hGm terminated_record_call_id terminated_record_created
          terminated_sync_benign id r1 r' hr1 hr'
        exact h2.trans h1
      · rw [show (applyOp st (Op.screen cid tr env dS remote n1 n2 n3 n4 dE)).store =
            (wisp_screen_core st cid tr env dS remote n1 n2 n3 n4 dE).1.store from rfl, h] at hr'
        have h2 := sp_preserve hGm transfer_init_record_call_id transfer_init_record_created
          transfer_init_sync_benign id r1 r' hr1 hr'
        exact h2.trans h1
  | restart =>
      intro id r r' hr hr'
      have : st.store id = some r' := hr'
      rw [hr] at this
      cases this
      rfl

lemma applyOp_fresh {st : SysState} (hG : GoodState st) (op : Op) :
    ∀ id, st.store id = Option.none → st.active_calls id = Option.none →
      ∀ r', (applyOp st op).store id = some r' →
        r' Field.created_at ∈ (opNows op).map Val.str := by
  cases op with
  | started cid f t nF nD dF =>
      intro id hs _ r' hr'
      have := started_fresh id hs r' hr'
      simp [opNows, this]
  | ended cid nF nD dF =>
      intro id hs ha r' hr'
      have := sp_fresh hG ended_record_call_id ended_record_created ended_sync_benign
        id hs ha r' hr'
      simp [opNows, this]
  | transferredEv cid tto nF nD dF =>
      intro id hs ha r' hr'
      have := sp_fresh hG transferred_record_call_id transferred_record_created
        transferred_sync_benign id hs ha r' hr'
      simp [opNows, this]
  | screen cid tr env dS remote n1 n2 n3 n4 dE =>
      intro id hs ha r' hr'
      have hGm : GoodState (screenMid st cid tr env dS n1 n2) :=
        sp_good hG screen_record_call_id screen_record_created screen_sync_benign
      have hres := wisp_screen_core_cases st cid tr env dS remote n1 n2 n3 n4 dE
      rw [show (applyOp st (Op.screen cid tr env dS remote n1 n2 n3 n4 dE)).store =
          (wisp_screen_core st cid tr env dS remote n1 n2 n3 n4 dE).1.store from rfl] at hr'
      have hstep2 : ∀ stM, (screenMid st cid tr env dS n1 n2) = stM →
          True := fun _ _ => trivial
      rcases hres with h | h | h
      · rw [h] at hr'
        have := sp_fresh hG screen_record_call_id screen_record_created screen_sync_benign
          id hs ha r' hr'
        simp [opNows, this]
      · rw [h] at hr'
        cases hmid : (screenMid st cid tr env dS n1 n2).store id with
        | none =>
          have hamid : (screenMid st cid tr env dS n1 n2).active_calls id = Option.none :=
            sp_reg_none ha
          have := sp_fresh hGm terminated_record_call_id terminated_record_created
            terminated_sync_benign id hmid hamid r' hr'
          simp [opNows, this]
        | some r1 =>
          have h1 := sp_fresh hG screen_record_call_id screen_record_created
            screen_sync_benign id hs ha r1 hmid
          have h2 := sp_preserve hGm terminated_record_call_id terminated_record_created
            terminated_sync_benign id r1 r' hmid hr'
          rw [h2, h1]
          simp [opNows]
      · rw [h] at hr'
        cases hmid : (screenMid st cid tr env dS n1 n2).store id with
        | none =>
          have hamid : (screenMid st cid tr env dS n1 n2).active_calls id = Option.none :=
            sp_reg_none ha
          have := sp_fresh hGm transfer_init_record_call_id transfer_init_record_created
            transfer_init_sync_benign id hmid hamid r' hr'
          simp [opNows, this]
        | some r1 =>
          have h1 := sp_fresh hG screen_record_call_id screen_record_created
            screen_sync_benign id hs ha r1 hmid
          have h2 := sp_preserve hGm transfer_init_record_call_id transfer_init_record_created
            transfer_init_sync_benign id r1 r' hmid hr'
          rw [h2, h1]
          simp [opNows]
  | restart =>
      intro id hs _ r' hr'
      have : st.store id = some r' := hr'
      rw [hs] at this
      cases this

/-- The invariant holds on every reachable state. -/
lemma run_good (ops : List Op) : GoodState (run ops) := by
  suffices h : ∀ (l : List Op) (st : SysState), GoodState st → GoodState (l.foldl applyOp st) by
    exact h ops initState goodState_init
  intro l
  induction l with
  | nil => intro st hG; exact hG
  | cons op tl ih =>
    intro st hG
    exact ih (applyOp st op) (applyOp_good hG op)

/-! ## Claim theorems -/

/-- C7: for every call id, once `created_at` is set by the first successful
write, no subsequent write changes it; and the stored `created_at` equals the
earliest non-null `created_at` among the durable record, the live entry and
the update, or the current time if none exists.  Stated over every reachable
state (`run ops`) and every next input `op`: (1) a stored `created_at`
survives every handler unchanged; (2) on reachable states the live entry's
`created_at`, when present, agrees with the stored row's — the update only
ever takes its `created_at` from the live entry, so all non-null sources of a
write coincide and the earliest of them is the preserved value; (3) a row
written when neither a durable row nor a live entry exists gets one of the
write's wall-clock values as `created_at`. -/
theorem C7_created_at_write_once (ops : List Op) (op : Op) (id : String) :
    (∀ v w, storeVal (run ops) id Field.created_at = some v →
        storeVal (applyOp (run ops) op) id Field.created_at = some w → w = v)
  ∧ (∀ v w, regVal (run ops) id Field.created_at = some (some v) →
        storeVal (run ops) id Field.created_at = some w → v = w)
  ∧ (storeVal (run ops) id Field.created_at = Option.none →
      regVal (run ops) id Field.created_at = Option.none →
      ∀ w, storeVal (applyOp (run ops) op) id Field.created_at = some w →
        w ∈ (opNows op).map Val.str) := by
  have hG := run_good ops
  refine ⟨?_, ?_, ?_⟩
  · intro v w hv hw
    simp only [storeVal, Option.map_eq_some'] at hv hw
    obtain ⟨r, hr, hrv⟩ := hv
    obtain ⟨r', hr', hrw⟩ := hw
    rw [← hrv, ← hrw]
    exact applyOp_preserve hG op id r r' hr hr'
  · intro v w he hw
    simp only [regVal, Option.map_eq_some'] at he
    simp only [storeVal, Option.map_eq_some'] at hw
    obtain ⟨e, he, hev⟩ := he
    obtain ⟨r, hr, hrw⟩ := hw
    rw [← hrw]
    exact hG.2 id e r v he hr hev
  · intro hs ha w hw
    simp only [storeVal, Option.map_eq_none'] at hs
    simp only [regVal, Option.map_eq_none'] at ha
    simp only [storeVal, Option.map_eq_some'] at hw
    obtain ⟨r', hr', hrw⟩ := hw
    rw [← hrw]
    exact applyOp_fresh hG op id hs ha r' hr'

/-- Witness for C7: a `call_started` write for "X" sets `created_at` to its
wall clock, and a subsequent `call_ended` write leaves it unchanged. -/
theorem C7_created_at_write_once_witness :
    storeVal (run [Op.started "X" (Val.str "+15551111") (Val.str "+15552222") "s1" "s1db" false])
        "X" Field.created_at = some (Val.str "s1db")
  ∧ storeVal (applyOp
        (run [Op.started "X" (Val.str "+15551111") (Val.str "+15552222") "s1" "s1db" false])
        (Op.ended "X" "e1" "e1db" false)) "X" Field.created_at = some (Val.str "s1db") := by
  have hpre : storeVal
      (run [Op.started "X" (Val.str "+15551111") (Val.str "+15552222") "s1" "s1db" false])
      "X" Field.created_at = some (Val.str "s1db") := by decide
  refine ⟨hpre, ?_⟩
  cases hpost : storeVal (applyOp
      (run [Op.started "X" (Val.str "+15551111") (Val.str "+15552222") "s1" "s1db" false])
      (Op.ended "X" "e1" "e1db" false)) "X" Field.created_at with
  | none =>
    exact absurd hpost (by decide)
  | some w =>
    have hw := (C7_created_at_write_once
        [Op.started "X" (Val.str "+15551111") (Val.str "+15552222") "s1" "s1db" false]
        (Op.ended "X" "e1" "e1db" false) "X").1 (Val.str "s1db") w hpre hpost
    rw [hw]

/-- C4: a remote not-found (404) makes terminate return the success-equivalent
already-gone result (`True`) after exactly 1 attempt with no retry, makes
transfer return failure after exactly 1 attempt with no retry, and a remote
that fails retryably twice then succeeds makes terminate succeed after
exactly 3 attempts.  The executor results carry (state, returned boolean,
attempts made, backoff sleeps). -/
theorem C4_not_found_and_retry (st : SysState) (cid tgt wh nF nD : String) (dF : Bool)
    (r1 r2 : Nat → RemoteResp)
    (h404 : r1 0 = RemoteResp.httpError 404)
    (hf0 : Retryable (r2 0)) (hf1 : Retryable (r2 1)) (hok : r2 2 = RemoteResp.ok) :
    terminate_retell_call st cid r1 nF nD dF 3 = (st, true, 1, 0)
  ∧ warm_transfer_retell_call st cid tgt wh r1 nF nD dF 3 = (st, false, 1, 0)
  ∧ (terminate_retell_call st cid r2 nF nD dF 3).2 = (true, 3, 2) := by
  refine ⟨?_, ?_, ?_⟩
  · show (terminate_loop st cid r1 nF nD dF 0 3) = (st, true, 1, 0)
    simp [terminate_loop, h404]
  · show (warm_transfer_loop st cid tgt r1 nF nD dF 0 3) = (st, false, 1, 0)
    simp [warm_transfer_loop, h404]
  · show (terminate_loop st cid r2 nF nD dF 0 3).2 = (true, 3, 2)
    rcases hf0 with ⟨h0ok, h0404⟩
    rcases hf1 with ⟨h1ok, h1404⟩
    cases hr0 : r2 0 with
    | ok => exact absurd hr0 h0ok
    | httpError c =>
      have hc : c ≠ 404 := fun hcc => h0404 (by rw [hr0, hcc])
      cases hr1 : r2 1 with
      | ok => exact absurd hr1 h1ok
      | httpError c' =>
        have hc' : c' ≠ 404 := fun hcc => h1404 (by rw [hr1, hcc])
        simp [terminate_loop, hr0, hc, hr1, hc', hok]
      | exn => simp [terminate_loop, hr0, hc, hr1, hok]
    | exn =>
      cases hr1 : r2 1 with
      | ok => exact absurd hr1 h1ok
      | httpError c' =>
        have hc' : c' ≠ 404 := fun hcc => h1404 (by rw [hr1, hcc])
        simp [terminate_loop, hr0, hr1, hc', hok]
      | exn => simp [terminate_loop, hr0, hr1, hok]

/-- Witness for C4 at a concrete always-404 remote and a concrete
fails-twice-then-succeeds remote. -/
theorem C4_not_found_and_retry_witness :
    (terminate_retell_call initState "X" (fun _ => RemoteResp.httpError 404)
        "t1" "t1db" false 3).2 = (true, 1, 0)
  ∧ (warm_transfer_retell_call initState "X" "+15550000" "w"
        (fun _ => RemoteResp.httpError 404) "t1" "t1db" false 3).2 = (false, 1, 0)
  ∧ (terminate_retell_call initState "X"
        (fun n => if n < 2 then RemoteResp.exn else RemoteResp.ok) "t1" "t1db" false 3).2
      = (true, 3, 2) := by
  have h := C4_not_found_and_retry initState "X" "+15550000" "w" "t1" "t1db" false
    (fun _ => RemoteResp.httpError 404)
    (fun n => if n < 2 then RemoteResp.exn else RemoteResp.ok)
    rfl ⟨by decide, by decide⟩ ⟨by decide, by decide⟩ (by decide)
  exact ⟨by rw [h.1], by rw [h.2.1], h.2.2⟩

/-- C5 counterexample: a remote authentication error (401) is NOT treated as
non-retryable by the terminate executor or the primary variant's transfer
executor — both retry it to the attempt limit: 3 attempts and 2 backoff
sleeps, not an immediate failure after 1 attempt. -/
theorem C5_counterexample :
    (terminate_retell_call initState "X" (fun _ => RemoteResp.httpError 401)
        "t1" "t1db" false 3).2 = (false, 3, 2)
  ∧ (warm_transfer_retell_call initState "X" "+15550000" "w"
        (fun _ => RemoteResp.httpError 401) "t1" "t1db" false 3).2 = (false, 3, 2) := by
  decide

/-- C5 (amended): only the backend variant's standard warm transfer treats
401/400 as non-retryable, failing after exactly 1 attempt with no backoff
sleep; the terminate executor (both variants) and the primary variant's
transfer retry such errors like any other failure, up to the attempt limit. -/
theorem C5_amended_auth_error_retry (st : SysState) (cid tgt wh nF nD : String)
    (dF : Bool) (n : Nat) (remote remote2 : Nat → RemoteResp)
    (h0 : remote 0 = RemoteResp.httpError 401 ∨ remote 0 = RemoteResp.httpError 400)
    (hblocked : backend_transfer_blocked st cid = false)
    (hr2 : ∀ i, remote2 i = RemoteResp.httpError 401) :
    backend_warm_transfer st cid tgt wh remote true nF nD dF (n + 1) = (st, false, 1, 0)
  ∧ (terminate_retell_call st cid remote2 nF nD dF 3).2 = (false, 3, 2)
  ∧ (warm_transfer_retell_call st cid tgt wh remote2 nF nD dF 3).2 = (false, 3, 2) := by
  refine ⟨?_, ?_, ?_⟩
  · unfold backend_warm_transfer
    rw [hblocked]
    simp only [Bool.not_true, Bool.false_eq_true, if_false, if_neg]
    rcases h0 with h0 | h0 <;> simp [backend_transfer_loop, h0]
  · show (terminate_loop st cid remote2 nF nD dF 0 3).2 = (false, 3, 2)
    simp [terminate_loop, hr2 0, hr2 1, hr2 2]
  · show (warm_transfer_loop st cid tgt remote2 nF nD dF 0 3).2 = (false, 3, 2)
    simp [warm_transfer_loop, hr2 0, hr2 1, hr2 2]

/-- Witness for the amended C5 at concrete states and remotes. -/
theorem C5_amended_auth_error_retry_witness :
    (backend_warm_transfer initState "X" "+15550000" "w"
        (fun _ => RemoteResp.httpError 401) true "t1" "t1db" false 3).2 = (false, 1, 0)
  ∧ (terminate_retell_call initState "X" (fun _ => RemoteResp.httpError 401)
        "t1" "t1db" false 3).2 = (false, 3, 2) := by
  have h := C5_amended_auth_error_retry initState "X" "+15550000" "w" "t1" "t1db" false 2
    (fun _ => RemoteResp.httpError 401) (fun _ => RemoteResp.httpError 401)
    (Or.inl rfl) (by decide) (fun _ => rfl)
  exact ⟨by rw [h.1], h.2.1⟩

/-- The response of the screening flow is the classifier's verdict and
summary with the request's call id, whatever else happens. -/
lemma wisp_screen_core_resp (st : SysState) (cid tr : String) (env : OllamaEnv)
    (dS : Bool) (remote : Nat → RemoteResp) (n1 n2 n3 n4 : String) (dE : Bool) :
    (wisp_screen_core st cid tr env dS remote n1 n2 n3 n4 dE).2.1 =
      ⟨(analyze_with_gemini env tr).1, (analyze_with_gemini env tr).2, cid⟩ := by
  unfold wisp_screen_core
  cases hv : (analyze_with_gemini env tr).1 <;> simp [hv]

/-- The response component of a screening endpoint result. -/
def respOf : Except Nat (ScreeningResponse × ActionTaken) × SysState →
    Option ScreeningResponse
  | (.ok p, _) => some p.1
  | (.error _, _) => Option.none

/-- C6: for every valid screening request (both wire shapes), the caller
receives the verdict/summary/call_id response whatever the downstream
terminate/transfer action does (`remote`, `dE`) and whether or not the
durable-store write fails (`dS`): executor and persistence failures never
escape into the response path. -/
theorem C6_response_despite_failures (st : SysState) (b : WireBody) (env : OllamaEnv)
    (dS : Bool) (remote : Nat → RemoteResp) (n1 n2 n3 n4 : String) (dE : Bool)
    (cid tr : String) (hex : extractFields b = (some cid, some tr))
    (hcid : cid ≠ "") (htr : tr ≠ "") :
    ∃ act st', wisp_screen st b env dS remote n1 n2 n3 n4 dE =
      (Except.ok (⟨(analyze_with_gemini env tr).1, (analyze_with_gemini env tr).2, cid⟩, act),
       st') := by
  refine ⟨(wisp_screen_core st cid tr env dS remote n1 n2 n3 n4 dE).2.2,
          (wisp_screen_core st cid tr env dS remote n1 n2 n3 n4 dE).1, ?_⟩
  unfold wisp_screen
  rw [hex]
  simp only [otruthy]
  simp [hcid, htr, wisp_screen_core_resp]

/-- Witness for C6: the downstream transfer fails (always-404 remote) and the
store write fails, yet the caller still receives the verdict and summary. -/
theorem C6_response_despite_failures_witness :
    respOf (wisp_screen initState ⟨Option.none, some "X", some "hello"⟩
        ⟨false, false, fun _ => Except.error ()⟩ true
        (fun _ => RemoteResp.httpError 404) "s1" "s1db" "e1" "e1db" true)
      = some ⟨Verdict.SAFE, "Unable to analyze call transcript", "X"⟩ := by
  obtain ⟨act, st', heq⟩ := C6_response_despite_failures initState
    ⟨Option.none, some "X", some "hello"⟩ ⟨false, false, fun _ => Except.error ()⟩ true
    (fun _ => RemoteResp.httpError 404) "s1" "s1db" "e1" "e1db" true "X" "hello"
    rfl (by decide) (by decide)
  rw [heq]
  show some ({ verdict := (analyze_with_gemini ⟨false, false, fun _ => Except.error ()⟩ "hello").1,
               summary := (analyze_with_gemini ⟨false, false, fun _ => Except.error ()⟩ "hello").2,
               call_id := "X" } : ScreeningResponse)
    = some { verdict := Verdict.SAFE, summary := "Unable to analyze call transcript",
             call_id := "X" }
  decide

/-- C8: a screening request (either wire shape) with a missing (or empty,
which Python treats identically as falsy) `call_id` or `transcript` is
rejected with a 422 client error and the state — live registry and durable
store — is returned untouched. -/
theorem C8_missing_field_rejected (st : SysState) (b : WireBody) (env : OllamaEnv)
    (dS : Bool) (remote : Nat → RemoteResp) (n1 n2 n3 n4 : String) (dE : Bool)
    (h : otruthy (extractFields b).1 = false ∨ otruthy (extractFields b).2 = false) :
    wisp_screen st b env dS remote n1 n2 n3 n4 dE = (Except.error 422, st) := by
  unfold wisp_screen
  rcases h with h | h
  · simp [h]
  · by_cases h1 : otruthy (extractFields b).1 = true
    · simp [h, h1]
    · simp [h1]

/-- Witness for C8: a nested-shape request carrying only a call id (no
transcript) is rejected without touching the state. -/
theorem C8_missing_field_rejected_witness :
    wisp_screen initState ⟨some ⟨some "X", Option.none⟩, Option.none, Option.none⟩
        ⟨false, false, fun _ => Except.error ()⟩ false
        (fun _ => RemoteResp.httpError 404) "s1" "s1db" "e1" "e1db" false
      = (Except.error 422, initState) :=
  C8_missing_field_rejected initState ⟨some ⟨some "X", Option.none⟩, Option.none, Option.none⟩
    ⟨false, false, fun _ => Except.error ()⟩ false
    (fun _ => RemoteResp.httpError 404) "s1" "s1db" "e1" "e1db" false
    (Or.inr (by decide))

/-- C10: whenever the classifier backend is unavailable — the `ollama`
library missing, the server unreachable — or the generation call raises, the
screening function returns `(SAFE, "Unable to analyze call transcript")`, and
the screening flow therefore takes the warm-transfer branch, never the
termination branch. -/
theorem C10_classifier_failure_routes_to_transfer (env : OllamaEnv) (tr : String)
    (h : env.ollama_imported = false ∨ env.list_ok = false ∨
         env.generate (mkPrompt tr) = Except.error ()) :
    analyze_with_gemini env tr = (Verdict.SAFE, "Unable to analyze call transcript")
  ∧ ∀ (st : SysState) (cid : String) (dS : Bool) (remote : Nat → RemoteResp)
      (n1 n2 n3 n4 : String) (dE : Bool),
      ((wisp_screen_core st cid tr env dS remote n1 n2 n3 n4 dE).2.2).isTransfer = true := by
  have hana : analyze_with_gemini env tr = (Verdict.SAFE, "Unable to analyze call transcript") := by
    rcases h with h | h | h
    · simp [analyze_with_gemini, h]
    · by_cases hi : env.ollama_imported
      · simp [analyze_with_gemini, check_ollama_connection, h, hi]
      · simp [analyze_with_gemini, hi]
    · by_cases hi : env.ollama_imported
      · by_cases hl : env.list_ok
        · simp [analyze_with_gemini, check_ollama_connection, hi, hl, h]
        · simp [analyze_with_gemini, check_ollama_connection, hi, hl]
      · simp [analyze_with_gemini, hi]
  refine ⟨hana, ?_⟩
  intro st cid dS remote n1 n2 n3 n4 dE
  unfold wisp_screen_core
  simp only [hana]
  rfl

/-- Witness for C10 with a concrete unavailable backend. -/
theorem C10_classifier_failure_routes_to_transfer_witness :
    analyze_with_gemini ⟨false, true, fun _ => Except.ok "VERDICT: SCAM\nSUMMARY: a b c d e"⟩
        "hello" = (Verdict.SAFE, "Unable to analyze call transcript")
  ∧ ((wisp_screen_core initState "X" "hello"
        ⟨false, true, fun _ => Except.ok "VERDICT: SCAM\nSUMMARY: a b c d e"⟩ false
        (fun _ => RemoteResp.httpError 404) "s1" "s1db" "e1" "e1db" false).2.2).isTransfer
      = true := by
  have h := C10_classifier_failure_routes_to_transfer
    ⟨false, true, fun _ => Except.ok "VERDICT: SCAM\nSUMMARY: a b c d e"⟩ "hello"
    (Or.inl rfl)
  exact ⟨h.1, h.2 initState "X" false (fun _ => RemoteResp.httpError 404)
    "s1" "s1db" "e1" "e1db" false⟩

/-- C9 counterexample: with a secret configured and a signature header whose
`d` value does not match the HMAC digest, verification fails and the warning
is logged — but the webhook is processed anyway: the handler answers `ok` and
writes the transfer event to the store; no unauthorized rejection exists in
the code (it is a commented-out line). -/
theorem C9_counterexample :
    verify_retell_webhook (fun _ _ => "rightsig") (some "sek") "rawbody" "v=1,d=wrongsig"
      = false
  ∧ (retell_webhook initState (fun _ _ => "rightsig") (some "sek") (some "v=1,d=wrongsig")
      "rawbody" (some ⟨some "call_transferred", ⟨"X", Val.none, Val.none, Val.str "+1777"⟩⟩)
      "t1" "t1db" false).2.2 = true
  ∧ (retell_webhook initState (fun _ _ => "rightsig") (some "sek") (some "v=1,d=wrongsig")
      "rawbody" (some ⟨some "call_transferred", ⟨"X", Val.none, Val.none, Val.str "+1777"⟩⟩)
      "t1" "t1db" false).1 = Except.ok (some "call_transferred", "X")
  ∧ storeVal (retell_webhook initState (fun _ _ => "rightsig") (some "sek")
      (some "v=1,d=wrongsig") "rawbody"
      (some ⟨some "call_transferred", ⟨"X", Val.none, Val.none, Val.str "+1777"⟩⟩)
      "t1" "t1db" false).2.1 "X" Field.transferred_to = some (Val.str "+1777") := by
  refine ⟨by decide, by decide, by decide, by decide⟩

/-- C9 (amended): when a webhook secret is configured and the request's
signature header does not verify (signature taken from the `d` key of the
comma-separated header, compared with constant-time string comparison
against the HMAC-SHA256 hex digest of the payload), the failure is logged
and the request is processed anyway: the response and the state transition
are exactly those of the dispatch with no signature check — the
production-mode 401 rejection exists only as a commented-out line. -/
theorem C9_amended_bad_signature_logged_not_rejected (st : SysState)
    (hmacHex : String → String → String) (s h rawBody : String)
    (payload : Option WebhookPayload) (nF nD : String) (dF : Bool)
    (hsne : s ≠ "") (hhne : h ≠ "")
    (hver : verify_retell_webhook hmacHex (some s) rawBody h = false) :
    retell_webhook st hmacHex (some s) (some h) rawBody payload nF nD dF
      = ((retell_webhook_dispatch st payload nF nD dF).1,
         (retell_webhook_dispatch st payload nF nD dF).2, true) := by
  unfold retell_webhook
  simp [hsne, hhne, hver]

/-- Witness for the amended C9 at a concrete mismatching signature. -/
theorem C9_amended_bad_signature_logged_not_rejected_witness :
    retell_webhook initState (fun _ _ => "rightsig") (some "sek") (some "v=1,d=wrongsig")
        "rawbody" (some ⟨some "call_ended", ⟨"X", Val.none, Val.none, Val.none⟩⟩)
        "t1" "t1db" false
      = ((retell_webhook_dispatch initState
            (some ⟨some "call_ended", ⟨"X", Val.none, Val.none, Val.none⟩⟩)
            "t1" "t1db" false).1,
         (retell_webhook_dispatch initState
            (some ⟨some "call_ended", ⟨"X", Val.none, Val.none, Val.none⟩⟩)
            "t1" "t1db" false).2, true) :=
  C9_amended_bad_signature_logged_not_rejected initState (fun _ _ => "rightsig")
    "sek" "v=1,d=wrongsig" "rawbody"
    (some ⟨some "call_ended", ⟨"X", Val.none, Val.none, Val.none⟩⟩) "t1" "t1db" false
    (by decide) (by decide) (by decide)

/-! ### Concrete scenarios for the merge-policy claims

The scenario used below: a screening request for call `"X"` arrives before
any `call_started` webhook (so no live-registry entry exists — the same
situation arises after a process restart).  The classifier backend is down,
so the verdict is `SAFE`, and the subsequent warm transfer gets a remote 404
and performs no write of its own.  The durable row for `"X"` then holds the
verdict and the transcript. -/

/-- Classifier environment with the `ollama` library unavailable. -/
def envUnavailable : OllamaEnv := ⟨false, false, fun _ => Except.error ()⟩

/-- A remote that always answers 404. -/
def remote404 : Nat → RemoteResp := fun _ => RemoteResp.httpError 404

/-- State after the screening request for `"X"` (no live entry). -/
def screenFirstSt : SysState :=
  applyOp initState (Op.screen "X" "hello scam" envUnavailable false remote404
    "s1" "s1db" "e1" "e1db" false)

/-- C1 (code bug): the durable row for `"X"` holds the non-null verdict
`SAFE`; the live registry has no entry for `"X"`; a `call_transferred`
webhook — which carries no verdict — then overwrites the stored
`screening_verdict` with NULL, because the handler merges only the live
entry into its partial record and `INSERT OR REPLACE` writes every column. -/
theorem C1_verdict_nulled_by_transfer :
    storeVal screenFirstSt "X" Field.screening_verdict = some (Val.str "SAFE")
  ∧ regVal screenFirstSt "X" Field.screening_verdict = Option.none
  ∧ storeVal (applyOp screenFirstSt
      (Op.transferredEv "X" (Val.str "+19998887777") "t1" "t1db" false))
      "X" Field.screening_verdict = some Val.none := by
  refine ⟨by decide, by decide, by decide⟩

/-- C2 counterexample: the stored transcript of `"X"` — a field the
`call_started` update does not set — does not keep its previous value across
that update: the write replaces it with NULL. -/
theorem C2_counterexample :
    storeVal screenFirstSt "X" Field.transcript = some (Val.str "hello scam")
  ∧ storeVal (applyOp screenFirstSt
      (Op.started "X" (Val.str "+15551111") (Val.str "+15552222") "u1" "u1db" false))
      "X" Field.transcript = some Val.none := by
  refine ⟨by decide, by decide⟩

/-- C2 (amended): the store write has replace semantics, not merge semantics:
every column other than `created_at`, `updated_at` and `transfer_initiated`
is stored exactly as the (live-entry-merged) update dict's value — NULL when
the update has no value for it — so a previously stored field survives only
when the handler's live-entry merge carried it into the update; `created_at`
alone is preserved from the existing row by the store layer itself. -/
theorem C2_amended_replace_semantics (store : Store) (d : Dict) (nowDb cid : String)
    (f : Field) (hcid : dget d Field.call_id = Val.str cid)
    (hf1 : f ≠ Field.created_at) (hf2 : f ≠ Field.updated_at)
    (hf3 : f ≠ Field.transfer_initiated) :
    (∀ r', (create_or_update_call store d nowDb false).1 cid = some r' → r' f = dget d f)
  ∧ (d Field.created_at = Option.none →
      ∀ r r', store cid = some r → (create_or_update_call store d nowDb false).1 cid = some r' →
        r' Field.created_at = r Field.created_at) := by
  constructor
  · intro r' hr'
    rw [cr_store_write_apply hcid store nowDb cid, if_pos rfl] at hr'
    cases hr'
    rw [rowOfDict_other hf3]
    unfold dget
    rw [cr_data_other hf1 hf2]
  · intro hdc r r' hr hr'
    rw [cr_store_write_apply hcid store nowDb cid, if_pos rfl] at hr'
    cases hr'
    rw [rowOfDict_other (by decide)]
    unfold dget
    rw [cr_created_of_absent_found hdc hcid hr]
    rfl

/-- The durable store after a `call_started` write for `"X"`. -/
def c2Store : Store :=
  (run [Op.started "X" (Val.str "+15551111") (Val.str "+15552222") "s1" "s1db" false]).store

/-- Witness for the amended C2: writing the `call_ended` partial record for
`"X"` over a stored row nulls `from_number` (absent from the update) and
keeps `created_at`. -/
theorem C2_amended_replace_semantics_witness :
    ((create_or_update_call c2Store (ended_record "X" "e1") "e1db" false).1 "X").map
        (fun r => r Field.from_number) = some Val.none
  ∧ ((create_or_update_call c2Store (ended_record "X" "e1") "e1db" false).1 "X").map
        (fun r => r Field.created_at) = some (Val.str "s1db") := by
  have h := C2_amended_replace_semantics c2Store (ended_record "X" "e1") "e1db" "X"
    Field.from_number (show dget (ended_record "X" "e1") Field.call_id = Val.str "X" from rfl)
    (by decide) (by decide) (by decide)
  constructor
  · have hr' : (create_or_update_call c2Store (ended_record "X" "e1") "e1db" false).1 "X"
        = some (rowOfDict
            (create_or_update_call c2Store (ended_record "X" "e1") "e1db" false).2.1) := by
      rw [cr_store_write_apply
        (show dget (ended_record "X" "e1") Field.call_id = Val.str "X" from rfl)
        c2Store "e1db" "X"]
      exact if_pos rfl
    have h1 := h.1 (rowOfDict
      (create_or_update_call c2Store (ended_record "X" "e1") "e1db" false).2.1) hr'
    rw [hr', Option.map_some', h1]
    decide
  · decide

/-- Modelled from the spec (§4.1): the merge contract the spec describes —
start from the existing durable record, overlay the live entry, overlay the
update fields last.  Stated only for comparison with the record the handlers
actually persist. -/
def spec_merge (durable live update : Dict) : Dict :=
  dictUpdate (dictUpdate durable live) update

/-- The durable record for a call, as a dict (empty when absent). -/
def durableDictAt (st : SysState) (id : String) : Dict :=
  match st.store id with
  | some r => rowToDict r
  | Option.none => emptyDict

/-- C3 counterexample: at the `call_transferred` write in the screen-first
scenario, the spec's merge (durable record first, live entry, update last)
would keep the stored transcript, since the update does not set it; the
record the handler actually persists merges only the (absent) live entry
into the update, and the stored transcript comes out NULL.  The persisted
record is therefore not the overlay of (durable, live, update). -/
theorem C3_counterexample :
    dget (spec_merge (durableDictAt screenFirstSt "X") emptyDict
        (transferred_record "X" (Val.str "+19998887777") "t1")) Field.transcript
      = Val.str "hello scam"
  ∧ storeVal (applyOp screenFirstSt
      (Op.transferredEv "X" (Val.str "+19998887777") "t1" "t1db" false))
      "X" Field.transcript = some Val.none
  ∧ ¬ (storeVal (applyOp screenFirstSt
        (Op.transferredEv "X" (Val.str "+19998887777") "t1" "t1db" false))
        "X" Field.transcript
      = some (dget (spec_merge (durableDictAt screenFirstSt "X") emptyDict
          (transferred_record "X" (Val.str "+19998887777") "t1")) Field.transcript)) := by
  refine ⟨by decide, by decide, by decide⟩

/-- C3 (amended): the durable record does not participate in the primary
variant's merge, and the live entry is overlaid after the update — yet every
field the update explicitly sets still reaches the persisted record, because
each handler first writes the same values into the live entry (the sync
step) before merging it.  Concretely: (1) the screening persist record
always carries the screening verdict, summary, screened-at and transcript of
the update; (2) the terminate-result persist record always carries
`status = terminated` and the update's `terminated_at`; (3) the backend
variant's screening persist overlays the durable record first, then the live
entry, and sets the screening fields last, so they always carry the update's
values. -/
theorem C3_amended_update_values_reach_record :
    (∀ (reg : Registry) (cid : String) (v : Verdict) (su nF tr : String),
        dget (sp_record (sync_reg reg cid (screen_sync v su nF tr)) cid
          (screen_record cid v su nF tr)) Field.screening_verdict
            = Val.str (verdictStr v)
      ∧ dget (sp_record (sync_reg reg cid (screen_sync v su nF tr)) cid
          (screen_record cid v su nF tr)) Field.screening_summary = Val.str su
      ∧ dget (sp_record (sync_reg reg cid (screen_sync v su nF tr)) cid
          (screen_record cid v su nF tr)) Field.screened_at = Val.str nF
      ∧ dget (sp_record (sync_reg reg cid (screen_sync v su nF tr)) cid
          (screen_record cid v su nF tr)) Field.transcript = Val.str tr)
  ∧ (∀ (reg : Registry) (cid nF : String),
        dget (sp_record (sync_reg reg cid (terminated_sync nF)) cid
          (terminated_record cid nF)) Field.status = Val.str "terminated"
      ∧ dget (sp_record (sync_reg reg cid (terminated_sync nF)) cid
          (terminated_record cid nF)) Field.terminated_at = Val.str nF)
  ∧ (∀ (existing live : Option Dict) (cid tr su : String) (v : Verdict) (sa : String),
        dget (backend_screen_record existing live cid tr su v sa) Field.screening_verdict
          = Val.str (verdictStr v)
      ∧ dget (backend_screen_record existing live cid tr su v sa) Field.screening_summary
          = Val.str su
      ∧ dget (backend_screen_record existing live cid tr su v sa) Field.screened_at
          = Val.str sa
      ∧ dget (backend_screen_record existing live cid tr su v sa) Field.transcript
          = Val.str tr) := by
  refine ⟨?_, ?_, ?_⟩
  · intro reg cid v su nF tr
    cases h : reg cid with
    | none =>
      rw [sp_record_of_none (by rw [sync_reg_at, h]; rfl)]
      exact ⟨rfl, rfl, rfl, rfl⟩
    | some e =>
      rw [sp_record_of_some (e := setFields e (screen_sync v su nF tr))
        (by rw [sync_reg_at, h]; rfl)]
      exact ⟨rfl, rfl, rfl, rfl⟩
  · intro reg cid nF
    cases h : reg cid with
    | none =>
      rw [sp_record_of_none (by rw [sync_reg_at, h]; rfl)]
      exact ⟨rfl, rfl⟩
    | some e =>
      rw [sp_record_of_some (e := setFields e (terminated_sync nF))
        (by rw [sync_reg_at, h]; rfl)]
      exact ⟨rfl, rfl⟩
  · intro existing live cid tr su v sa
    exact ⟨rfl, rfl, rfl, rfl⟩

end Wisp
